import Mathlib

/-!
# SLAMStruder firmware: heater regulator, temperature estimator, stepper, knob

A shallow embedding of `Heater.cpp`, `Stepper.cpp` and `Knob.cpp`.

Conventions of the embedding.

* `float` values are rationals (`ℚ`), and every `float` operation of the source is
  the exact operation followed by the rounding `fl32` to IEEE 754 binary32 (round to
  nearest, ties to even, gradual underflow), one rounding per operation (no fused
  multiply-add), in program order.  Only finite values are represented: a result beyond the binary32 range,
  which the hardware replaces by an infinity, and a division by zero are outside
  the model.  The statements that depend on the value of a `float` result say so in
  a hypothesis (`Heater.stepFinite`, or a bound on the period of the stepper).
* `int` is the 32-bit two's complement integer of the ARM target, `unsigned int`
  and `unsigned long` are naturals below `2 ^ 32` with explicit wrap-around.
* Hardware effects (`digitalWrite`, `analogWrite`, `Serial.print`) are recorded
  in traces carried by the state, in program order.
* The microsecond counter `micros()` and the value the temperature estimator
  obtains from the sensor are inputs of `run`.
-/

namespace SLAMStruder

/-! ## Machine arithmetic -/

/-- Smallest value of the 32-bit `int`. -/
def INT_MIN : Int := -2147483648

/-- Largest value of the 32-bit `int`. -/
def INT_MAX : Int := 2147483647

/-- Rounding to the nearest integer, ties to the even one. -/
def roundHalfEven (z : ℚ) : Int :=
  if z - ⌊z⌋ < 1 / 2 then ⌊z⌋
  else if 1 / 2 < z - ⌊z⌋ then ⌊z⌋ + 1
  else if ⌊z⌋ % 2 = 0 then ⌊z⌋ else ⌊z⌋ + 1

/-- The binary exponent of the binary32 grid around `x`: the exponent of `x`, or
-126 in the subnormal range. -/
def float32Exponent (x : ℚ) : Int :=
  max (Int.log 2 |x|) (-126)

/-- The rounding of a `float` operation on the target: `x` is replaced by the nearest
multiple of `2 ^ (e - 23)`, `e` being the binary exponent of `x` (24 significant
bits), ties going to the even multiple. -/
def fl32 (x : ℚ) : ℚ :=
  roundHalfEven (x / 2 ^ (float32Exponent x - 23)) * 2 ^ (float32Exponent x - 23)

/-- Largest finite value of a `float`, `(2 ^ 24 - 1) * 2 ^ 104`; a rounded result
beyond it is replaced by an infinity on the target. -/
def FLT_MAX : ℚ := 340282346638528859811704183484516925440

/-- Truncation toward zero, the rounding of a C++ float-to-integer conversion. -/
def truncate (x : ℚ) : Int := if 0 ≤ x then ⌊x⌋ else ⌈x⌉

/-- Conversion `(int) x` of a `float` to the 32-bit `int`: the fractional part is
discarded; a value beyond the `int` range (undefined in C++) saturates, which is
what the conversion does on the ARM target. -/
def floatToInt (x : ℚ) : Int := max INT_MIN (min (truncate x) INT_MAX)

/-- Conversion of an `int` to `unsigned int` (reduction modulo `2 ^ 32`). -/
def toUnsigned (a : Int) : Nat := (a % 4294967296).toNat

/-! ## Hardware traces -/

/-- One write to an output pin. -/
inductive PinWrite where
  | digitalWrite (pin : Int) (level : Bool)
  | analogWrite (pin : Int) (value : Int)
  deriving DecidableEq

/-- One diagnostic line printed by `Heater::run`: `micros()`, `curTemp`, `error`,
`iError` and `PWMOUT`. -/
structure SerialLine where
  timestamp : Nat
  curTemp : ℚ
  error : ℚ
  iError : ℚ
  PWMOUT : Int
  deriving DecidableEq

/-! ## Heater (`Heater.h`, `Heater.cpp`) -/

/-- The members of `class Heater`, followed by the traces of its hardware effects.
`lastPIDTime` holds the reference reading of the `elapsedMicros` member. -/
structure Heater where
  curTemp : ℚ
  targetTemp : ℚ
  _enabled : Bool
  _heaterPin : Nat
  _thermPin : Nat
  _fanPin : Nat
  _SH_A : ℚ
  _SH_B : ℚ
  _SH_C : ℚ
  _kp : ℚ
  _ki : ℚ
  _kd : ℚ
  _maxPWM : Int
  _loopInterval : Nat
  _ADCMax : Nat
  _thermPullupR : Nat
  lastPIDTime : Nat
  lastError : ℚ
  iError : ℚ
  pinLog : List PinWrite
  serialLog : List SerialLine
  deriving DecidableEq

namespace Heater

/-- Modelled from the spec: `elapsedMicros` (Teensy core class, not under src/) read
as an `unsigned long`: the microsecond counter minus the stored reference, modulo
`2 ^ 32`.  This is the residual of the timing gate. -/
def elapsed (h : Heater) (now : Nat) : Nat :=
  (now % 4294967296 + 4294967296 - h.lastPIDTime % 4294967296) % 4294967296

/-- Modelled from the spec: `elapsedMicros::operator-=` (Teensy core class, not under
src/): the residual drops by `val`, the counter reference advancing by `val`. -/
def elapsedSub (h : Heater) (val : Nat) : Heater :=
  { h with lastPIDTime := (h.lastPIDTime + val) % 4294967296 }

/-- `Heater::enable`. -/
def enable (h : Heater) : Heater :=
  { h with
    _enabled := true
    pinLog := h.pinLog ++ [PinWrite.digitalWrite h._fanPin true] }

/-- `Heater::disable`. -/
def disable (h : Heater) : Heater :=
  { h with
    _enabled := false
    pinLog := h.pinLog ++
      [PinWrite.analogWrite h._heaterPin 0, PinWrite.digitalWrite h._fanPin false] }

/-- Modelled from the spec: `Heater::setTargetTemp` (declared in `Heater.h`, its body
is not under src/), a pure state accessor storing the target temperature. -/
def setTargetTemp (h : Heater) (temp : ℚ) : Heater :=
  { h with targetTemp := temp }

/-- The divisor `_ADCMax - analogVal` of `Heater::updateTemp`, in `unsigned int`. -/
def thermDivisor (h : Heater) (analogVal : Int) : Nat :=
  (h._ADCMax % 4294967296 + 4294967296 - toUnsigned analogVal) % 4294967296

/-- The argument of `log` in `Heater::updateTemp`:
`(_thermPullupR * analogVal) / (_ADCMax - analogVal)`, an `unsigned int` division;
`none` when the divisor is zero. -/
def thermResistance (h : Heater) (analogVal : Int) : Option Nat :=
  if h.thermDivisor analogVal = 0 then none
  else some ((h._thermPullupR * toUnsigned analogVal) % 4294967296 / h.thermDivisor analogVal)

/-- The denominator `_SH_A + _SH_B * logR + _SH_C * pow(logR,3)` of
`Heater::updateTemp`, over any field so that it can be read at the real logarithm. -/
def steinhartDenom {K : Type} [Field K] (A B C logR : K) : K :=
  A + B * logR + C * logR ^ 3

/-- The value `1 / (...) - 273.15` that `Heater::updateTemp` stores in `curTemp`. -/
def steinhartHart {K : Type} [Field K] (A B C logR : K) : K :=
  1 / steinhartDenom A B C logR - 27315 / 100

/-- `Heater::updateTemp` as seen by the control loop: `curTemp` receives `temp`, the
`float` that the Steinhart-Hart expression yields for the sample just read (the
logarithm has no rational value, so the result is the input here). -/
def updateTemp (h : Heater) (temp : ℚ) : Heater :=
  { h with curTemp := temp }

/-- The local `error` of `Heater::run`: `targetTemp - curTemp`. -/
def error (h : Heater) : ℚ :=
  fl32 (h.targetTemp - h.curTemp)

/-- The local `newIError` of `Heater::run`:
`max(min(iError + error * _loopInterval / 1E6f, 10), 0)`; `_loopInterval` is converted
to `float` for the product. -/
def newIError (h : Heater) : ℚ :=
  max (min (fl32 (h.iError + fl32 (fl32 (h.error * fl32 h._loopInterval) / 1000000))) 10) 0

/-- The local `dError` of `Heater::run`: `(error - lastError) / _loopInterval * 1E6f`. -/
def dError (h : Heater) : ℚ :=
  fl32 (fl32 (fl32 (h.error - h.lastError) / fl32 h._loopInterval) * 1000000)

/-- The float expression `_kp * error + _ki * iError + _kd * dError` that initialises
`PIDOUT` in `Heater::run`, before its conversion to `int`. -/
def pidRaw (h : Heater) : ℚ :=
  fl32 (fl32 (fl32 (h._kp * h.error) + fl32 (h._ki * h.iError)) + fl32 (h._kd * h.dError))

/-- The rounded results of the twelve `float` operations of the PID block of
`Heater::run`, in program order: `error`; the product, quotient and sum of `newIError`;
the difference, quotient and product of `dError`; the three products and two sums of
the expression that initialises `PIDOUT`. -/
def stepValues (h : Heater) : List ℚ :=
  [h.error,
   fl32 (h.error * fl32 h._loopInterval),
   fl32 (fl32 (h.error * fl32 h._loopInterval) / 1000000),
   fl32 (h.iError + fl32 (fl32 (h.error * fl32 h._loopInterval) / 1000000)),
   fl32 (h.error - h.lastError),
   fl32 (fl32 (h.error - h.lastError) / fl32 h._loopInterval),
   h.dError,
   fl32 (h._kp * h.error),
   fl32 (h._ki * h.iError),
   fl32 (fl32 (h._kp * h.error) + fl32 (h._ki * h.iError)),
   fl32 (h._kd * h.dError),
   h.pidRaw]

/-- The range in which the PID block of `Heater::run` works on finite `float` values
only: the divisor `_loopInterval` is not zero and none of the twelve operations
overflows to an infinity (so that none yields a NaN either). -/
def stepFinite (h : Heater) : Prop :=
  0 < h._loopInterval ∧ ∀ x ∈ h.stepValues, |x| ≤ FLT_MAX

/-- The local `PIDOUT` of `Heater::run`. -/
def PIDOUT (h : Heater) : Int :=
  floatToInt h.pidRaw

/-- The local `PWMOUT` of `Heater::run`: `min(max(PIDOUT,0), _maxPWM)`. -/
def PWMOUT (h : Heater) : Int :=
  min (max h.PIDOUT 0) h._maxPWM

/-- The body of `if (_enabled) { ... }` in `Heater::run`, on the state after
`updateTemp`. -/
def control (h : Heater) (now : Nat) : Heater :=
  { h with
    iError := if h.PWMOUT = h.PIDOUT then h.newIError else h.iError
    serialLog := h.serialLog ++
      [{ timestamp := now, curTemp := h.curTemp, error := h.error,
         iError := if h.PWMOUT = h.PIDOUT then h.newIError else h.iError,
         PWMOUT := h.PWMOUT }]
    pinLog := h.pinLog ++ [PinWrite.analogWrite h._heaterPin h.PWMOUT]
    lastError := h.error }

/-- Whether the timing gate `lastPIDTime > _loopInterval` of `Heater::run` passes
when the microsecond counter reads `now`. -/
def gateOpen (h : Heater) (now : Nat) : Bool :=
  decide (h._loopInterval < h.elapsed now)

/-- The first two statements of the gated block of `Heater::run`:
`lastPIDTime -= _loopInterval; updateTemp();`. -/
def sampled (h : Heater) (temp : ℚ) : Heater :=
  (h.elapsedSub h._loopInterval).updateTemp temp

/-- `Heater::run`, called when the microsecond counter reads `now` and the
temperature estimator yields `temp`. -/
def run (h : Heater) (now : Nat) (temp : ℚ) : Heater :=
  if h.gateOpen now then
    if (h.sampled temp)._enabled then (h.sampled temp).control now else h.sampled temp
  else h

end Heater

/-- The calls a client makes on a `Heater`. -/
inductive HeaterOp where
  | enable
  | disable
  | setTargetTemp (temp : ℚ)
  | run (now : Nat) (temp : ℚ)
  deriving DecidableEq

namespace Heater

/-- One client call. -/
def step (h : Heater) : HeaterOp → Heater
  | HeaterOp.enable => h.enable
  | HeaterOp.disable => h.disable
  | HeaterOp.setTargetTemp temp => h.setTargetTemp temp
  | HeaterOp.run now temp => h.run now temp

/-- A sequence of client calls, in order. -/
def steps (h : Heater) : List HeaterOp → Heater
  | [] => h
  | op :: ops => (h.step op).steps ops

/-- The pin writes performed between state `h` and a later state `h2`. -/
def newWrites (h h2 : Heater) : List PinWrite :=
  h2.pinLog.drop h.pinLog.length

/-- Counter readings of the `run` calls of a sequence whose timing gate passed, that
is, of the executed control steps, in order. -/
def execTimes (h : Heater) : List HeaterOp → List Nat
  | [] => []
  | HeaterOp.run now temp :: ops =>
      if h.gateOpen now then now :: (h.run now temp).execTimes ops
      else (h.run now temp).execTimes ops
  | HeaterOp.enable :: ops => h.enable.execTimes ops
  | HeaterOp.disable :: ops => h.disable.execTimes ops
  | HeaterOp.setTargetTemp temp :: ops => (h.setTargetTemp temp).execTimes ops

end Heater

namespace HeaterOp

/-- Calls that are a `run` or a change of target, the calls that neither enable nor
disable the heater. -/
def isRunOrTarget : HeaterOp → Bool
  | HeaterOp.run _ _ => true
  | HeaterOp.setTargetTemp _ => true
  | _ => false

end HeaterOp

/-- Counter readings of all the `run` calls of a sequence, in order. -/
def runTimes : List HeaterOp → List Nat
  | [] => []
  | HeaterOp.run now _ :: ops => now :: runTimes ops
  | _ :: ops => runTimes ops

namespace PinWrite

/-- The pin a write addresses. -/
def pin : PinWrite → Int
  | digitalWrite p _ => p
  | analogWrite p _ => p

/-- The value a write puts on its pin (`HIGH` is 1, `LOW` is 0). -/
def value : PinWrite → Int
  | digitalWrite _ level => if level then 1 else 0
  | analogWrite _ v => v

end PinWrite

/-- The value most recently written to `pin` in a trace, if any. -/
def pinState (log : List PinWrite) (pin : Int) : Option Int :=
  ((log.filter (fun w => decide (w.pin = pin))).getLast?).map PinWrite.value

/-! ## Reference control law (specification, section 4.2, step 3) -/

/-- The quantities of one control step as the specification words them. -/
structure ReferenceStep where
  error : ℚ
  trialIntegral : ℚ
  derivative : ℚ
  raw : ℚ
  actuation : ℚ
  lastError : ℚ
  deriving DecidableEq

/-- The clamp of `x` to `[lo, hi]`. -/
def clamp (x lo hi : ℚ) : ℚ := max lo (min x hi)

/-- The reference control law: `error = target - current`, the trial integral
`clamp(integralError + error * dt, 0, 10)` with `dt` the loop period in seconds,
`derivative = (error - lastError) / dt`,
`raw = kp * error + ki * integralError + kd * derivative`,
`actuation = clamp(raw, 0, maxDutyCycle)`, and `lastError` updated to `error`. -/
def referenceControlLaw (kp ki kd : ℚ) (maxDutyCycle : Int) (loopPeriod : Nat)
    (target current lastError integralError : ℚ) : ReferenceStep :=
  let dt : ℚ := (loopPeriod : ℚ) / 1000000
  let error := target - current
  let derivative := (error - lastError) / dt
  let raw := kp * error + ki * integralError + kd * derivative
  { error := error
    trialIntegral := clamp (integralError + error * dt) 0 10
    derivative := derivative
    raw := raw
    actuation := clamp raw 0 maxDutyCycle
    lastError := error }

/-- The reference control law at the parameters and memory of heater `h`, for the
sampled temperature `temp`. -/
def Heater.reference (h : Heater) (temp : ℚ) : ReferenceStep :=
  referenceControlLaw h._kp h._ki h._kd h._maxPWM h._loopInterval h.targetTemp temp
    h.lastError h.iError

/-- The reference control law in single precision: the formulas of
`referenceControlLaw` with every operation rounded to `float`, where the time step
enters the trial integral as `error * loopPeriod / 1e6` and the derivative as
`(error - lastError) / loopPeriod * 1e6`, evaluated left to right, and the sum of
`raw` is taken left to right. -/
def referenceControlLawF32 (kp ki kd : ℚ) (maxDutyCycle : Int) (loopPeriod : Nat)
    (target current lastError integralError : ℚ) : ReferenceStep :=
  let error := fl32 (target - current)
  let derivative := fl32 (fl32 (fl32 (error - lastError) / fl32 loopPeriod) * 1000000)
  let raw := fl32 (fl32 (fl32 (kp * error) + fl32 (ki * integralError)) + fl32 (kd * derivative))
  { error := error
    trialIntegral :=
      clamp (fl32 (integralError + fl32 (fl32 (error * fl32 loopPeriod) / 1000000))) 0 10
    derivative := derivative
    raw := raw
    actuation := clamp raw 0 maxDutyCycle
    lastError := error }

/-- The single-precision reference control law at the parameters and memory of heater
`h`, for the sampled temperature `temp`. -/
def Heater.referenceF32 (h : Heater) (temp : ℚ) : ReferenceStep :=
  referenceControlLawF32 h._kp h._ki h._kd h._maxPWM h._loopInterval h.targetTemp temp
    h.lastError h.iError

/-! ## Stepper (`Stepper.h`, `Stepper.cpp`) -/

/-- The members of `class Stepper`, followed by the trace of its pin writes.
`stepTimer` is the `IntervalTimer`: `none` when disarmed, `some p` when armed to call
`STEPISR` every `p` microseconds. -/
structure Stepper where
  _stepPin : Int
  _dirPin : Int
  _mStepPin : Int
  _resetPin : Int
  _sleepPin : Int
  _MM_PER_STEP : ℚ
  usPerStep : Int
  stepTimer : Option Int
  pinLog : List PinWrite
  deriving DecidableEq

namespace Stepper

/-- Modelled from the spec: `IntervalTimer::end` (Teensy core class, not under src/),
the `disarm()` of the Step Pulse Generator: cancels the periodic callback. -/
def timerEnd (s : Stepper) : Stepper :=
  { s with stepTimer := none }

/-- Modelled from the spec: `IntervalTimer::begin` (Teensy core class, not under
src/), the `arm(intervalHalfPeriod)` of the Step Pulse Generator: starts the periodic
callback at the given half-period. -/
def timerBegin (s : Stepper) (intervalHalfPeriod : Int) : Stepper :=
  { s with stepTimer := some intervalHalfPeriod }

/-- `Stepper::setTimer`; `usPerStep / 2` is the `int` division, which truncates. -/
def setTimer (s : Stepper) : Stepper :=
  (s.timerEnd).timerBegin (Int.tdiv s.usPerStep 2)

/-- `Stepper::setSpeed`: `usPerStep = (int) (_MM_PER_STEP / speed * 1E6f)`. -/
def setSpeed (s : Stepper) (speed : ℚ) (run : Bool) : Stepper :=
  if run then
    { s with
      usPerStep := floatToInt (fl32 (fl32 (s._MM_PER_STEP / speed) * 1000000)) }.setTimer
  else
    { s with usPerStep := floatToInt (fl32 (fl32 (s._MM_PER_STEP / speed) * 1000000)) }

end Stepper

/-! ## Stepper operations, constructor and timer callback (`Stepper.cpp`) -/

namespace Stepper

/-- `Stepper::enable`. -/
def enable (s : Stepper) : Stepper :=
  { s with pinLog := s.pinLog ++ [PinWrite.digitalWrite s._sleepPin true] }.setTimer

/-- `Stepper::disable`. -/
def disable (s : Stepper) : Stepper :=
  { s with pinLog := s.pinLog ++ [PinWrite.digitalWrite s._sleepPin false] }.timerEnd

/-- `Stepper::setDir`. -/
def setDir (s : Stepper) (dir : Bool) : Stepper :=
  { s with pinLog := s.pinLog ++ [PinWrite.digitalWrite s._dirPin dir] }

/-- `Stepper::Stepper`, the constructor: the members are initialised, the timer is
constructed disarmed, `setSpeed(initialSpeed, false)` runs (the `int` argument
converted to `float`), then direction,
microstepping, reset and sleep lines are written (`pinMode` configures the pins and
writes no level, so it leaves no trace).  The placeholder 0 of `usPerStep` is
overwritten by `setSpeed` before any use. -/
def construct (stepPin dirPin mStepPin resetPin sleepPin : Int) (mmPerStep : ℚ)
    (initialSpeed : Int) (initialDir : Bool) : Stepper :=
  { ({ _stepPin := stepPin, _dirPin := dirPin, _mStepPin := mStepPin,
       _resetPin := resetPin, _sleepPin := sleepPin, _MM_PER_STEP := mmPerStep,
       usPerStep := 0, stepTimer := none,
       pinLog := [] } : Stepper).setSpeed (fl32 (initialSpeed : ℚ)) false with
    pinLog :=
      [PinWrite.digitalWrite dirPin initialDir, PinWrite.digitalWrite mStepPin true,
       PinWrite.digitalWrite resetPin true, PinWrite.digitalWrite sleepPin false] }

/-- Whether the Step Pulse Generator is armed. -/
def armed (s : Stepper) : Bool :=
  s.stepTimer.isSome

/-- Whether the sleep/enable line of the motor driver is asserted: the last level
written to the sleep pin is `HIGH`. -/
def driverEnabled (s : Stepper) : Bool :=
  decide (pinState s.pinLog s._sleepPin = some 1)

end Stepper

/-- The calls a client makes on a `Stepper`. -/
inductive StepperOp where
  | enable
  | disable
  | setSpeed (speed : ℚ) (run : Bool)
  | setDir (dir : Bool)
  deriving DecidableEq

namespace Stepper

/-- One client call. -/
def step (s : Stepper) : StepperOp → Stepper
  | StepperOp.enable => s.enable
  | StepperOp.disable => s.disable
  | StepperOp.setSpeed speed run => s.setSpeed speed run
  | StepperOp.setDir dir => s.setDir dir

/-- A sequence of client calls, in order. -/
def steps (s : Stepper) : List StepperOp → Stepper
  | [] => s
  | op :: ops => (s.step op).steps ops

end Stepper

/-- The file-scope state of `Stepper.cpp` that the timer callback works on: the global
`stepOn` and the trace of the pin writes of the callback. -/
structure StepISRState where
  stepOn : Bool
  pinLog : List PinWrite
  deriving DecidableEq

/-- `STEPISR`, the callback of the Step Pulse Generator:
`stepOn = !stepOn; digitalWrite(16, stepOn);`. -/
def STEPISR (g : StepISRState) : StepISRState :=
  { stepOn := !g.stepOn
    pinLog := g.pinLog ++ [PinWrite.digitalWrite 16 (!g.stepOn)] }

/-! ## Heater constructor (`Heater.cpp`) -/

/-- The members that `Heater::Heater` does not initialise; they hold whatever the
storage of the object held before construction (zeros for an object of static storage
duration). -/
structure HeaterStorage where
  targetTemp : ℚ
  _enabled : Bool
  lastError : ℚ
  iError : ℚ
  deriving DecidableEq

/-- Conversion of an `unsigned int` to `int` (two's complement). -/
def toSigned (n : Nat) : Int :=
  if n % 4294967296 < 2147483648 then (n % 4294967296 : Nat) else (n % 4294967296 : Nat) - 4294967296

/-- `Heater::Heater`, the constructor, run on `storage` when the microsecond counter
reads `now` and the temperature estimator yields `temp`.  The member initialisers
convert `maxPWM` to `int` and `pow(2,ADCResolution)` to `unsigned int` (saturating
beyond the range); `lastPIDTime` is constructed at the current counter reading; the
body writes the heater and fan pins `LOW` and calls `updateTemp` (`analogReadRes`,
`analogReadAveraging` and `pinMode` configure the hardware and write no level, so
the argument `ADCAveraging`, which only `analogReadAveraging` receives, is left out).
The placeholder 0 of `curTemp` is overwritten by `updateTemp`. -/
def Heater.construct (storage : HeaterStorage) (heaterPin thermPin fanPin : Nat)
    (SH_A SH_B SH_C kp ki kd : ℚ)
    (maxPWM loopInterval ADCResolution thermPullupR : Nat) (now : Nat) (temp : ℚ) :
    Heater :=
  Heater.updateTemp
    { curTemp := 0, targetTemp := storage.targetTemp, _enabled := storage._enabled,
      _heaterPin := heaterPin, _thermPin := thermPin, _fanPin := fanPin,
      _SH_A := SH_A, _SH_B := SH_B, _SH_C := SH_C, _kp := kp, _ki := ki, _kd := kd,
      _maxPWM := toSigned maxPWM, _loopInterval := loopInterval,
      _ADCMax := min (2 ^ ADCResolution) 4294967295, _thermPullupR := thermPullupR,
      lastPIDTime := now % 4294967296, lastError := storage.lastError,
      iError := storage.iError,
      pinLog := [PinWrite.digitalWrite heaterPin false, PinWrite.digitalWrite fanPin false],
      serialLog := [] }
    temp

/-! ## Knob (`Knob.h`, `Knob.cpp`) -/

/-- Reduction of an integer to the 32-bit `int` (two's complement wrap). -/
def wrapInt (x : Int) : Int :=
  (x + 2147483648) % 4294967296 - 2147483648

/-- The parts of `class Knob` that the encoder scaling and the colour output use:
`enc` is the quadrature count held by the `Encoder` object (library class, not under
src/; `write` stores the count and `read` returns it), followed by the LED pins and
the trace of the pin writes. -/
structure Knob where
  enc : Int
  _RLED : Int
  _GLED : Int
  _BLED : Int
  pinLog : List PinWrite
  deriving DecidableEq

/-- The `std::array<int,3>` that `Knob::HSV2RGB` returns. -/
structure RGB where
  r : Int
  g : Int
  b : Int
  deriving DecidableEq

namespace Knob

/-- `Knob::encRead`: `(enc->read() + 2) / 4`, an `int` division (truncating). -/
def encRead (k : Knob) : Int :=
  Int.tdiv (wrapInt (k.enc + 2)) 4

/-- `Knob::encWrite`: `enc->write(pos * 4)`. -/
def encWrite (k : Knob) (pos : Int) : Knob :=
  { k with enc := wrapInt (pos * 4) }

/-- `Knob::HSV2RGB`.  `>> 8` is the division by 256 rounding down; `/` and `%` are
the truncating `int` operations; the `switch` has no default, so a quotient outside
`0..5` leaves the initial zeros.  The arithmetic is on unbounded integers, which
agrees with `int` as long as no intermediate value leaves the 32-bit range. -/
def HSV2RGB (hue sat val : Int) : RGB :=
  if sat = 0 then { r := val, g := val, b := val }
  else if Int.tdiv hue 60 = 0 then
    { r := val
      g := Int.tdiv ((val - (255 - sat) * val / 256) * hue) 60 + (255 - sat) * val / 256
      b := (255 - sat) * val / 256 }
  else if Int.tdiv hue 60 = 1 then
    { r := Int.tdiv ((val - (255 - sat) * val / 256) * (60 - Int.tmod hue 60)) 60
        + (255 - sat) * val / 256
      g := val
      b := (255 - sat) * val / 256 }
  else if Int.tdiv hue 60 = 2 then
    { r := (255 - sat) * val / 256
      g := val
      b := Int.tdiv ((val - (255 - sat) * val / 256) * Int.tmod hue 60) 60
        + (255 - sat) * val / 256 }
  else if Int.tdiv hue 60 = 3 then
    { r := (255 - sat) * val / 256
      g := Int.tdiv ((val - (255 - sat) * val / 256) * (60 - Int.tmod hue 60)) 60
        + (255 - sat) * val / 256
      b := val }
  else if Int.tdiv hue 60 = 4 then
    { r := Int.tdiv ((val - (255 - sat) * val / 256) * Int.tmod hue 60) 60
        + (255 - sat) * val / 256
      g := (255 - sat) * val / 256
      b := val }
  else if Int.tdiv hue 60 = 5 then
    { r := val
      g := (255 - sat) * val / 256
      b := Int.tdiv ((val - (255 - sat) * val / 256) * (60 - Int.tmod hue 60)) 60
        + (255 - sat) * val / 256 }
  else { r := 0, g := 0, b := 0 }

/-- `Knob::updateColor`. -/
def updateColor (k : Knob) (hue sat val : Int) : Knob :=
  { k with
    pinLog := k.pinLog ++
      [PinWrite.analogWrite k._RLED (255 - (HSV2RGB hue sat val).r),
       PinWrite.analogWrite k._GLED (255 - (HSV2RGB hue sat val).g),
       PinWrite.analogWrite k._BLED (255 - (HSV2RGB hue sat val).b)] }

end Knob

/-! ## Configured instances -/

/-- The heater as `Options.h` and `Pins.h` configure it (thermistor on pin 40),
enabled, with target 240 and zero prior error and integral; the decimal constants
are the `float` values nearest to them. -/
def configuredHeater : Heater :=
  { curTemp := 200, targetTemp := 240, _enabled := true,
    _heaterPin := 22, _thermPin := 40, _fanPin := 9,
    _SH_A := fl32 (811290160145459 / 1000000000000000000),
    _SH_B := fl32 (211355789144265 / 1000000000000000000),
    _SH_C := fl32 (717614730463848 / 10000000000000000000000),
    _kp := 30, _ki := fl32 (269 / 10), _kd := fl32 (83625 / 10000),
    _maxPWM := 220, _loopInterval := 10000, _ADCMax := 4096, _thermPullupR := 4700,
    lastPIDTime := 0, lastError := 0, iError := 0, pinLog := [], serialLog := [] }

/-- The configured heater just above its target: the previous error was -0.90625
and the committed integral is 1. -/
def nearTargetHeater : Heater :=
  { configuredHeater with lastError := -29 / 32, iError := 1 }

/-- The configured heater approaching its target: the previous error was 3.375 and
the committed integral is 0. -/
def approachingHeater : Heater :=
  { configuredHeater with lastError := 27 / 8 }

/-- The configured heater at the edge of saturation: 7 degrees below target with an
unchanged error and the committed integral 857571/2097152 (about 0.40892), for which
`kp * error + ki * iError` is 220.999994... in real numbers and 221 in `float`. -/
def saturationEdgeHeater : Heater :=
  { configuredHeater with lastError := 7, iError := 857571 / 2097152 }

/-- The stepper as `Options.h` and `Pins.h` configure it, disabled, at the initial
speed of 1 mm/s; the calibration is the `float` nearest to 0.00345. -/
def configuredStepper : Stepper :=
  { _stepPin := 16, _dirPin := 17, _mStepPin := 13, _resetPin := 14, _sleepPin := 15,
    _MM_PER_STEP := fl32 (345 / 100000), usPerStep := 3450, stepTimer := none,
    pinLog := [] }

/-- The knob as `Pins.h` wires it, at count 0. -/
def configuredKnob : Knob :=
  { enc := 0, _RLED := 6, _GLED := 5, _BLED := 3, pinLog := [] }

/-- Storage that is not zeroed: the enabled flag set, a previous error of 3, an
integral of 5 and a target of 240. -/
def dirtyStorage : HeaterStorage :=
  { targetTemp := 240, _enabled := true, lastError := 3, iError := 5 }

/-- Zeroed storage, as for an object of static storage duration. -/
def zeroedStorage : HeaterStorage :=
  { targetTemp := 0, _enabled := false, lastError := 0, iError := 0 }

/-- The heater constructed with the configured arguments on storage that is not
zeroed, at counter reading 0 and with a first sample of 25 degrees. -/
def dirtyHeater : Heater :=
  Heater.construct dirtyStorage 22 40 9
    (fl32 (811290160145459 / 1000000000000000000))
    (fl32 (211355789144265 / 1000000000000000000))
    (fl32 (717614730463848 / 10000000000000000000000))
    30 (fl32 (269 / 10)) (fl32 (83625 / 10000)) 220 10000 12 4700 0 25

/-- A heater constructed with the fan on the heater pin 22, on zeroed storage. -/
def sharedPinHeater : Heater :=
  Heater.construct zeroedStorage 22 40 22
    (fl32 (811290160145459 / 1000000000000000000))
    (fl32 (211355789144265 / 1000000000000000000))
    (fl32 (717614730463848 / 10000000000000000000000))
    30 (fl32 (269 / 10)) (fl32 (83625 / 10000)) 220 10000 12 4700 0 25

/-- A stepper constructed with the direction output on the sleep pin 15, then
enabled. -/
def sharedPinStepper : Stepper :=
  (Stepper.construct 16 15 13 14 15 (fl32 (345 / 100000)) 1 true).enable

/-! ## Float rounding lemmas -/

/-- A value within a half of an integer rounds to that integer. -/
theorem roundHalfEven_eq (z : ℚ) (m : Int) (h : |z - m| < 1 / 2) : roundHalfEven z = m := by
  rw [abs_lt] at h
  unfold roundHalfEven
  have hfl := Int.floor_le z
  have hfl2 := Int.lt_floor_add_one z
  split_ifs with h1 h2 h3
  · rw [Int.floor_eq_iff]
    constructor
    · by_contra hc
      push_neg at hc
      have h3 : (⌊z⌋ : ℚ) < m := lt_of_le_of_lt hfl hc
      have h4 : ⌊z⌋ < m := by exact_mod_cast h3
      have h5 : (⌊z⌋ : ℚ) + 1 ≤ m := by exact_mod_cast h4
      linarith
    · by_contra hc
      push_neg at hc
      have h4 : m + 1 ≤ ⌊z⌋ := Int.le_floor.mpr (by push_cast; exact hc)
      have h5 : (m : ℚ) + 1 ≤ ⌊z⌋ := by exact_mod_cast h4
      linarith
  · have h6 : (⌊z⌋ : ℚ) < m := by linarith
    have h7 : ⌊z⌋ < m := by exact_mod_cast h6
    have h8 : (m : ℚ) < ⌊z⌋ + 2 := by linarith
    have h9 : m < ⌊z⌋ + 2 := by exact_mod_cast h8
    omega
  · exfalso
    have he : z - ⌊z⌋ = 1 / 2 := le_antisymm (not_lt.mp h2) (not_lt.mp h1)
    have h6 : (⌊z⌋ : ℚ) < m := by linarith
    have h7 : ⌊z⌋ < m := by exact_mod_cast h6
    have h8 : (⌊z⌋ : ℚ) + 1 ≤ m := by exact_mod_cast h7
    linarith
  · exfalso
    have he : z - ⌊z⌋ = 1 / 2 := le_antisymm (not_lt.mp h2) (not_lt.mp h1)
    have h6 : (⌊z⌋ : ℚ) < m := by linarith
    have h7 : ⌊z⌋ < m := by exact_mod_cast h6
    have h8 : (⌊z⌋ : ℚ) + 1 ≤ m := by exact_mod_cast h7
    linarith

/-- Rounding to the nearest integer moves a value by at most a half. -/
theorem roundHalfEven_abs_sub_le (z : ℚ) : |(roundHalfEven z : ℚ) - z| ≤ 1 / 2 := by
  have hfl := Int.floor_le z
  have hfl2 := Int.lt_floor_add_one z
  unfold roundHalfEven
  rw [abs_le]
  split_ifs with h1 h2 h3
  · constructor <;> linarith
  · push_cast
    constructor <;> linarith
  · have he : z - ⌊z⌋ = 1 / 2 := le_antisymm (not_lt.mp h2) (not_lt.mp h1)
    constructor <;> linarith
  · have he : z - ⌊z⌋ = 1 / 2 := le_antisymm (not_lt.mp h2) (not_lt.mp h1)
    push_cast
    constructor <;> linarith

/-- The exponent of the binary32 grid, from a bracketing of the magnitude. -/
theorem float32Exponent_eq (x : ℚ) (e : Int) (he : -126 ≤ e) (hlo : (2 : ℚ) ^ e ≤ |x|)
    (hhi : |x| < (2 : ℚ) ^ (e + 1)) : float32Exponent x = e := by
  have hpos : 0 < |x| := lt_of_lt_of_le (by positivity) hlo
  have h1 : e ≤ Int.log 2 |x| :=
    (Int.zpow_le_iff_le_log (by norm_num) hpos).mp (by exact_mod_cast hlo)
  have h2 : Int.log 2 |x| < e + 1 :=
    (Int.lt_zpow_iff_log_lt (by norm_num) hpos).mp (by exact_mod_cast hhi)
  unfold float32Exponent
  omega

/-- Evaluation of the rounding of a positive value from its exponent `e` and its
24-bit significand `m`. -/
theorem fl32_eval_pos (x y : ℚ) (e m : Int) (h0 : 0 < x) (he : -126 ≤ e)
    (hlo : (2 : ℚ) ^ e ≤ x) (hhi : x < (2 : ℚ) ^ (e + 1))
    (hm : |x / 2 ^ (e - 23) - m| < 1 / 2) (hy : (m : ℚ) * 2 ^ (e - 23) = y) :
    fl32 x = y := by
  have habs : |x| = x := abs_of_pos h0
  unfold fl32
  rw [float32Exponent_eq x e he (by rw [habs]; exact hlo) (by rw [habs]; exact hhi),
    roundHalfEven_eq _ m hm, hy]

/-- Evaluation of the rounding of a negative value from its exponent `e` and its
24-bit significand `m`. -/
theorem fl32_eval_neg (x y : ℚ) (e m : Int) (h0 : x < 0) (he : -126 ≤ e)
    (hlo : (2 : ℚ) ^ e ≤ -x) (hhi : -x < (2 : ℚ) ^ (e + 1))
    (hm : |x / 2 ^ (e - 23) - m| < 1 / 2) (hy : (m : ℚ) * 2 ^ (e - 23) = y) :
    fl32 x = y := by
  have habs : |x| = -x := abs_of_neg h0
  unfold fl32
  rw [float32Exponent_eq x e he (by rw [habs]; exact hlo) (by rw [habs]; exact hhi),
    roundHalfEven_eq _ m hm, hy]

/-- Zero is a `float`. -/
theorem fl32_zero : fl32 0 = 0 := by
  unfold fl32
  rw [roundHalfEven_eq _ 0 (by norm_num)]
  norm_num

/-- In the normal range a rounding has relative error at most `2 ^ (-24)`. -/
theorem fl32_abs_sub_le (x : ℚ) (hx : (2 : ℚ) ^ (-126 : Int) ≤ |x|) :
    |fl32 x - x| ≤ |x| / 16777216 := by
  have hpos : 0 < |x| := lt_of_lt_of_le (by positivity) hx
  have hlog : -126 ≤ Int.log 2 |x| :=
    (Int.zpow_le_iff_le_log (by norm_num) hpos).mp (by exact_mod_cast hx)
  have hE : float32Exponent x = Int.log 2 |x| := by
    unfold float32Exponent
    omega
  have hle : (2 : ℚ) ^ (Int.log 2 |x|) ≤ |x| := by
    have := Int.zpow_log_le_self (b := 2) (r := |x|) (by norm_num) hpos
    exact_mod_cast this
  have hq : (0 : ℚ) < 2 ^ (Int.log 2 |x| - 23) := by positivity
  have hr := roundHalfEven_abs_sub_le (x / 2 ^ (Int.log 2 |x| - 23))
  have hsplit : (2 : ℚ) ^ (Int.log 2 |x|) = 2 ^ (Int.log 2 |x| - 23) * 8388608 := by
    rw [zpow_sub₀ (by norm_num : (2 : ℚ) ≠ 0)]
    norm_num
  have key : fl32 x - x =
      ((roundHalfEven (x / 2 ^ (Int.log 2 |x| - 23)) : ℚ) - x / 2 ^ (Int.log 2 |x| - 23)) *
        2 ^ (Int.log 2 |x| - 23) := by
    unfold fl32
    rw [hE]
    field_simp
  rw [key, abs_mul, abs_of_pos hq]
  have h1 : |(roundHalfEven (x / 2 ^ (Int.log 2 |x| - 23)) : ℚ) - x / 2 ^ (Int.log 2 |x| - 23)| *
      2 ^ (Int.log 2 |x| - 23) ≤ 1 / 2 * 2 ^ (Int.log 2 |x| - 23) :=
    mul_le_mul_of_nonneg_right hr hq.le
  have h2 : (1 : ℚ) / 2 * 2 ^ (Int.log 2 |x| - 23) = 2 ^ (Int.log 2 |x|) / 16777216 := by
    rw [hsplit]
    ring
  have h3 : (2 : ℚ) ^ (Int.log 2 |x|) / 16777216 ≤ |x| / 16777216 :=
    div_le_div_of_nonneg_right hle (by norm_num)
  linarith

/-- The rounding of a value of at least `1e-6` (well inside the normal range) is
within `2 ^ (-24)` of it, relatively. -/
theorem fl32_bounds_of_pos (x : ℚ) (hx : (1 : ℚ) / 1000000 ≤ x) :
    x * (1 - 1 / 16777216) ≤ fl32 x ∧ fl32 x ≤ x * (1 + 1 / 16777216) := by
  have hpos : 0 < x := lt_of_lt_of_le (by norm_num) hx
  have hn : (2 : ℚ) ^ (-126 : Int) ≤ |x| := by
    rw [abs_of_pos hpos]
    refine le_trans ?_ hx
    norm_num
  have h := fl32_abs_sub_le x hn
  rw [abs_of_pos hpos, abs_le] at h
  constructor <;> linarith [h.1, h.2]

/-! ### The configured constants -/

/-- The integral gain 26.9 of `Options.h` as a `float`. -/
theorem fl32_HEAT_KI : fl32 (269 / 10) = (14103347 / 524288) :=
  fl32_eval_pos (269 / 10) (14103347 / 524288) 4 14103347 (by norm_num) (by norm_num) (by norm_num)
    (by norm_num) (by norm_num [abs_lt]) (by norm_num)

/-- The derivative gain 8.3625 of `Options.h` as a `float`. -/
theorem fl32_HEAT_KD : fl32 (83625 / 10000) = (8768717 / 1048576) :=
  fl32_eval_pos (83625 / 10000) (8768717 / 1048576) 3 8768717 (by norm_num) (by norm_num) (by
    norm_num) (by norm_num) (by norm_num [abs_lt]) (by norm_num)

/-- The loop period 10000 of `Options.h` converted to `float`. -/
theorem fl32_PID_LOOP_INTERVAL : fl32 ((10000 : ℕ) : ℚ) = 10000 :=
  fl32_eval_pos ((10000 : ℕ) : ℚ) 10000 13 10240000 (by norm_num) (by norm_num) (by norm_num) (by
    norm_num) (by norm_num [abs_lt]) (by norm_num)

/-- The coefficient `THERM_COEFF_A` of `Options.h` as a `float`. -/
theorem fl32_THERM_COEFF_A : fl32 (811290160145459 / 1000000000000000000) = (13937859 /
    17179869184) :=
  fl32_eval_pos (811290160145459 / 1000000000000000000) (13937859 / 17179869184) (-11) 13937859 (by
    norm_num) (by norm_num) (by norm_num) (by norm_num) (by norm_num [abs_lt]) (by norm_num)

/-- The coefficient `THERM_COEFF_B` of `Options.h` as a `float`. -/
theorem fl32_THERM_COEFF_B : fl32 (211355789144265 / 1000000000000000000) = (14524259 /
    68719476736) :=
  fl32_eval_pos (211355789144265 / 1000000000000000000) (14524259 / 68719476736) (-13) 14524259 (by
    norm_num) (by norm_num) (by norm_num) (by norm_num) (by norm_num [abs_lt]) (by norm_num)

/-- The coefficient `THERM_COEFF_C` of `Options.h` as a `float`. -/
theorem fl32_THERM_COEFF_C : fl32 (717614730463848 / 10000000000000000000000) = (10099529 /
    140737488355328) :=
  fl32_eval_pos (717614730463848 / 10000000000000000000000) (10099529 / 140737488355328) (-24)
    10099529 (by norm_num) (by norm_num) (by norm_num) (by norm_num) (by norm_num [abs_lt]) (by
    norm_num)

/-- The calibration 0.00345 of `Options.h` as a `float`. -/
theorem fl32_MM_PER_STEP : fl32 (345 / 100000) = (14817637 / 4294967296) :=
  fl32_eval_pos (345 / 100000) (14817637 / 4294967296) (-9) 14817637 (by norm_num) (by norm_num)
    (by norm_num) (by norm_num) (by norm_num [abs_lt]) (by norm_num)

/-! ## Arithmetic lemmas -/

theorem clamp_int_eq_iff (P m : Int) (hm : 0 ≤ m) :
    min (max P 0) m = P ↔ 0 ≤ P ∧ P ≤ m := by
  omega

theorem truncate_le_neg_one {x : ℚ} (hx : x ≤ -1) : truncate x ≤ -1 := by
  have hneg : ¬ (0 ≤ x) := by linarith
  rw [truncate, if_neg hneg]
  exact Int.ceil_le.mpr (by exact_mod_cast hx)

theorem succ_le_truncate {x : ℚ} {m : Int} (hm : 0 ≤ m) (hx : (m : ℚ) + 1 ≤ x) :
    m + 1 ≤ truncate x := by
  have hm2 : (0 : ℚ) ≤ m := by exact_mod_cast hm
  have hpos : 0 ≤ x := by linarith
  rw [truncate, if_pos hpos]
  exact Int.le_floor.mpr (by push_cast; exact hx)

theorem truncate_mem_band {x : ℚ} {m : Int} (hm : 0 ≤ m) (h1 : -1 < x)
    (h2 : x < (m : ℚ) + 1) : 0 ≤ truncate x ∧ truncate x ≤ m := by
  unfold truncate
  split_ifs with h
  · refine ⟨Int.floor_nonneg.mpr h, ?_⟩
    have : ⌊x⌋ < m + 1 := Int.floor_lt.mpr (by push_cast; exact h2)
    omega
  · have hx : x < 0 := not_le.mp h
    have h0 : ⌈x⌉ = 0 := by
      rw [Int.ceil_eq_iff]
      push_cast
      constructor <;> linarith
    rw [h0]
    omega

theorem floatToInt_of_fits {x : ℚ} (h1 : INT_MIN ≤ truncate x) (h2 : truncate x ≤ INT_MAX) :
    floatToInt x = truncate x := by
  unfold floatToInt
  rw [min_eq_left h2, max_eq_right h1]

/-- Truncation of a non-negative value is its floor. -/
theorem truncate_of_nonneg {x : ℚ} (hx : 0 ≤ x) : truncate x = ⌊x⌋ := by
  rw [truncate, if_pos hx]

/-- Truncation of an integer-valued float is that integer. -/
theorem truncate_intCast (z : Int) : truncate (z : ℚ) = z := by
  unfold truncate
  split_ifs
  · exact Int.floor_intCast z
  · exact Int.ceil_intCast z

/-- Clamping the converted raw output, as `Heater::run` does, yields the truncation of
the clamped raw output. -/
theorem clamp_floatToInt (x : ℚ) (m : Int) (hm : 0 ≤ m) (hfit : m ≤ INT_MAX) :
    min (max (floatToInt x) 0) m = truncate (clamp x 0 m) := by
  have hmq : (0 : ℚ) ≤ m := by exact_mod_cast hm
  unfold INT_MAX at hfit
  have hF : floatToInt x = max (-2147483648) (min (truncate x) 2147483647) := rfl
  rcases lt_or_le x 0 with hneg | hpos
  · have ht : truncate x ≤ 0 := by
      rw [truncate, if_neg (not_le.mpr hneg)]
      exact Int.ceil_le.mpr (by exact_mod_cast hneg.le)
    have hc : clamp x 0 m = 0 := by
      unfold clamp
      rw [min_eq_left (by linarith), max_eq_left hneg.le]
    have h0 : truncate (0 : ℚ) = 0 := by
      have := truncate_intCast 0
      simpa using this
    rw [hc, h0]
    omega
  · rcases le_or_lt x m with hle | hgt
    · have hc : clamp x 0 m = x := by
        unfold clamp
        rw [min_eq_left hle, max_eq_right hpos]
      have ht0 : 0 ≤ truncate x := by
        rw [truncate_of_nonneg hpos]
        exact Int.floor_nonneg.mpr hpos
      have htm : truncate x ≤ m := by
        rw [truncate_of_nonneg hpos]
        have h1 : ((⌊x⌋ : Int) : ℚ) ≤ m := le_trans (Int.floor_le x) hle
        exact_mod_cast h1
      rw [hc]
      omega
    · have hc : clamp x 0 m = m := by
        unfold clamp
        rw [min_eq_right hgt.le, max_eq_right hmq]
      have htm : m ≤ truncate x := by
        rw [truncate_of_nonneg hpos]
        exact Int.le_floor.mpr hgt.le
      rw [hc, truncate_intCast]
      omega

/-- The floor of half an integer is its integer half. -/
theorem floor_half (t : Int) : ⌊(t : ℚ) / 2⌋ = t / 2 := by
  rw [Int.floor_eq_iff]
  have h1 : 2 * (t / 2) ≤ t := by omega
  have h2 : t < 2 * (t / 2) + 2 := by omega
  have h1q : (2 : ℚ) * ((t / 2 : Int) : ℚ) ≤ (t : ℚ) := by exact_mod_cast h1
  have h2q : (t : ℚ) < 2 * ((t / 2 : Int) : ℚ) + 2 := by exact_mod_cast h2
  constructor <;> linarith

/-- The scaling `(d * k) / 60` of `HSV2RGB`, for a weight `k` in `[0, 60]`, lies in
`[0, d]`. -/
theorem div60_bounds (d k : Int) (hd : 0 ≤ d) (hk0 : 0 ≤ k) (hk1 : k ≤ 60) :
    0 ≤ Int.tdiv (d * k) 60 ∧ Int.tdiv (d * k) 60 ≤ d := by
  have hnn : 0 ≤ d * k := mul_nonneg hd hk0
  rw [Int.tdiv_eq_ediv hnn (by norm_num)]
  refine ⟨Int.ediv_nonneg hnn (by norm_num), ?_⟩
  have hle : d * k ≤ d * 60 := mul_le_mul_of_nonneg_left hk1 hd
  have := Int.ediv_le_ediv (by norm_num : (0 : Int) < 60) hle
  rwa [Int.mul_ediv_cancel d (by norm_num : (60 : Int) ≠ 0)] at this

/-- The base level `((255 - sat) * val) >> 8` of `HSV2RGB` lies in `[0, val]`. -/
theorem base_bounds (sat val : Int) (hs0 : 0 ≤ sat) (hs1 : sat ≤ 255) (hv0 : 0 ≤ val) :
    0 ≤ (255 - sat) * val / 256 ∧ (255 - sat) * val / 256 ≤ val := by
  have hnn : 0 ≤ (255 - sat) * val := mul_nonneg (by omega) hv0
  refine ⟨Int.ediv_nonneg hnn (by norm_num), ?_⟩
  have hle : (255 - sat) * val ≤ val * 256 := by
    have := mul_le_mul_of_nonneg_right (by omega : 255 - sat ≤ 256) hv0
    linarith
  have := Int.ediv_le_ediv (by norm_num : (0 : Int) < 256) hle
  rwa [Int.mul_ediv_cancel val (by norm_num : (256 : Int) ≠ 0)] at this

/-! ## Frame lemmas -/

namespace Heater

theorem run_maxPWM (h : Heater) (now : Nat) (temp : ℚ) :
    (h.run now temp)._maxPWM = h._maxPWM := by
  unfold run
  split_ifs <;> rfl

theorem run_heaterPin (h : Heater) (now : Nat) (temp : ℚ) :
    (h.run now temp)._heaterPin = h._heaterPin := by
  unfold run
  split_ifs <;> rfl

theorem run_loopInterval (h : Heater) (now : Nat) (temp : ℚ) :
    (h.run now temp)._loopInterval = h._loopInterval := by
  unfold run
  split_ifs <;> rfl

theorem step_maxPWM (h : Heater) (op : HeaterOp) : (h.step op)._maxPWM = h._maxPWM := by
  cases op
  · rfl
  · rfl
  · rfl
  · exact run_maxPWM h _ _

theorem step_heaterPin (h : Heater) (op : HeaterOp) :
    (h.step op)._heaterPin = h._heaterPin := by
  cases op
  · rfl
  · rfl
  · rfl
  · exact run_heaterPin h _ _

theorem step_loopInterval (h : Heater) (op : HeaterOp) :
    (h.step op)._loopInterval = h._loopInterval := by
  cases op
  · rfl
  · rfl
  · rfl
  · exact run_loopInterval h _ _

theorem steps_maxPWM (h : Heater) (ops : List HeaterOp) :
    (h.steps ops)._maxPWM = h._maxPWM := by
  induction ops generalizing h with
  | nil => rfl
  | cons op ops ih => rw [steps, ih, step_maxPWM]

theorem steps_heaterPin (h : Heater) (ops : List HeaterOp) :
    (h.steps ops)._heaterPin = h._heaterPin := by
  induction ops generalizing h with
  | nil => rfl
  | cons op ops ih => rw [steps, ih, step_heaterPin]

theorem steps_loopInterval (h : Heater) (ops : List HeaterOp) :
    (h.steps ops)._loopInterval = h._loopInterval := by
  induction ops generalizing h with
  | nil => rfl
  | cons op ops ih => rw [steps, ih, step_loopInterval]

/-- The clamp `min(max(PIDOUT,0), _maxPWM)` lands in `[0, _maxPWM]`. -/
theorem PWMOUT_range (h : Heater) (hmax : 0 ≤ h._maxPWM) :
    0 ≤ h.PWMOUT ∧ h.PWMOUT ≤ h._maxPWM := by
  unfold PWMOUT
  exact ⟨le_min (le_max_right _ _) hmax, min_le_right _ _⟩

/-- The pin writes of one `run`: none, or the single `analogWrite` of the PID block. -/
theorem newWrites_run (h : Heater) (now : Nat) (temp : ℚ) :
    h.newWrites (h.run now temp) =
      if h.gateOpen now = true ∧ h._enabled = true then
        [PinWrite.analogWrite h._heaterPin
          (h.sampled temp).PWMOUT]
      else [] := by
  unfold run newWrites
  by_cases hg : h.gateOpen now = true
  · by_cases he : h._enabled = true
    · simp [hg, he, control, sampled, updateTemp, elapsedSub]
    · simp [hg, he, sampled, updateTemp, elapsedSub]
  · simp [hg]

end Heater

namespace Heater

/-- An executed control step of an enabled heater is the PID block on the sampled
state. -/
theorem run_of_enabled (h : Heater) (now : Nat) (temp : ℚ) (hg : h.gateOpen now = true)
    (hen : h._enabled = true) : h.run now temp = (h.sampled temp).control now := by
  have hen2 : (h.sampled temp)._enabled = true := hen
  unfold run
  rw [if_pos hg, if_pos hen2]

/-- A `run` whose gate is closed changes nothing. -/
theorem run_of_closed (h : Heater) (now : Nat) (temp : ℚ) (hg : h.gateOpen now = false) :
    h.run now temp = h := by
  unfold run
  simp [hg]

/-- An executed control step of a disabled heater only samples. -/
theorem run_of_disabled (h : Heater) (now : Nat) (temp : ℚ) (hg : h.gateOpen now = true)
    (hen : h._enabled = false) : h.run now temp = h.sampled temp := by
  have hen2 : (h.sampled temp)._enabled = false := hen
  unfold run
  simp [hg, hen2]

/-- The trial integral lies in `[0, 10]`. -/
theorem newIError_range (h : Heater) : 0 ≤ h.newIError ∧ h.newIError ≤ 10 := by
  unfold newIError
  exact ⟨le_max_right _ _, max_le (min_le_right _ _) (by norm_num)⟩

/-- While disabled, `run` and `setTargetTemp` calls neither enable the heater nor
write a pin. -/
theorem steps_of_disabled (h : Heater) (ops : List HeaterOp) (hen : h._enabled = false)
    (hops : ∀ op ∈ ops, op.isRunOrTarget = true) :
    (h.steps ops)._enabled = false ∧ (h.steps ops).pinLog = h.pinLog := by
  induction ops generalizing h with
  | nil => exact ⟨hen, rfl⟩
  | cons op ops ih =>
    have hop := hops op (List.mem_cons_self _ _)
    have hrest : ∀ o ∈ ops, o.isRunOrTarget = true :=
      fun o ho => hops o (List.mem_cons_of_mem _ ho)
    have hstep : (h.step op)._enabled = false ∧ (h.step op).pinLog = h.pinLog := by
      cases op with
      | enable => simp [HeaterOp.isRunOrTarget] at hop
      | disable => simp [HeaterOp.isRunOrTarget] at hop
      | setTargetTemp t => exact ⟨hen, rfl⟩
      | run now temp =>
        show (h.run now temp)._enabled = false ∧ (h.run now temp).pinLog = h.pinLog
        cases hg : h.gateOpen now with
        | false =>
          rw [run_of_closed h now temp hg]
          exact ⟨hen, rfl⟩
        | true =>
          rw [run_of_disabled h now temp hg hen]
          exact ⟨hen, rfl⟩
    have := ih (h.step op) hstep.1 hrest
    rw [steps]
    exact ⟨this.1, this.2.trans hstep.2⟩

/-- The value on the heater pin right after `disable` is 0, also when the fan shares
the pin. -/
theorem pinState_disable (h : Heater) : pinState h.disable.pinLog h._heaterPin = some 0 := by
  unfold pinState disable
  by_cases hp : (h._fanPin : Int) = (h._heaterPin : Int)
  · simp [List.filter_append, List.filter_cons, PinWrite.pin, PinWrite.value, hp]
  · simp [List.filter_append, List.filter_cons, PinWrite.pin, PinWrite.value, hp]

/-! ### The timing gate -/

/-- Without wrap-around the residual of the gate is the plain difference. -/
theorem elapsed_of_le (h : Heater) (now : Nat) (hu : h.lastPIDTime ≤ now)
    (hn : now < 4294967296) : h.elapsed now = now - h.lastPIDTime := by
  unfold elapsed
  omega

theorem gateOpen_iff (h : Heater) (now : Nat) :
    h.gateOpen now = true ↔ h._loopInterval < h.elapsed now := by
  unfold gateOpen
  exact decide_eq_true_iff

theorem run_lastPIDTime_of_open (h : Heater) (now : Nat) (temp : ℚ)
    (hg : h.gateOpen now = true) :
    (h.run now temp).lastPIDTime = (h.lastPIDTime + h._loopInterval) % 4294967296 := by
  unfold run
  rw [if_pos hg]
  split_ifs <;> rfl

/-- An executed step lowers the residual by exactly the loop period. -/
theorem run_elapsed_of_open (h : Heater) (now : Nat) (temp : ℚ)
    (hg : h.gateOpen now = true) :
    (h.run now temp).elapsed now = h.elapsed now - h._loopInterval := by
  have hlt := (gateOpen_iff h now).mp hg
  have hu := run_lastPIDTime_of_open h now temp hg
  unfold elapsed at hlt ⊢
  rw [hu]
  omega

/-- The gate bookkeeping over a sequence of calls whose `run` readings are
non-decreasing, do not precede `tcur` and do not wrap: the counter reference advances
by one loop period per executed step, the executed step of index `k` happens more than
`k + 1` loop periods after the reference, and executed readings are `run` readings. -/
theorem gate_bookkeeping (ops : List HeaterOp) :
    ∀ (h : Heater) (tcur : Nat), h.lastPIDTime ≤ tcur →
      List.Pairwise (· ≤ ·) (tcur :: runTimes ops) →
      (∀ t ∈ runTimes ops, t < 4294967296) →
      (h.steps ops).lastPIDTime =
          h.lastPIDTime + (h.execTimes ops).length * h._loopInterval ∧
        (h.steps ops)._loopInterval = h._loopInterval ∧
        (∀ k t, (h.execTimes ops)[k]? = some t →
          h.lastPIDTime + (k + 1) * h._loopInterval < t) ∧
        (∀ t ∈ h.execTimes ops, t ∈ runTimes ops) := by
  induction ops with
  | nil =>
    intro h tcur _ _ _
    simp [steps, execTimes, runTimes]
  | cons op ops ih =>
    intro h tcur hu hs hlt
    cases op with
    | enable => exact ih h.enable tcur hu hs hlt
    | disable => exact ih h.disable tcur hu hs hlt
    | setTargetTemp temp => exact ih (h.setTargetTemp temp) tcur hu hs hlt
    | run now temp =>
      have hs2 : List.Pairwise (· ≤ ·) (tcur :: now :: runTimes ops) := hs
      have hnow : tcur ≤ now := (List.pairwise_cons.mp hs2).1 now (List.mem_cons_self _ _)
      have hrest : List.Pairwise (· ≤ ·) (now :: runTimes ops) := (List.pairwise_cons.mp hs2).2
      have hnlt : now < 4294967296 := hlt now (List.mem_cons_self _ _)
      have hlt2 : ∀ t ∈ runTimes ops, t < 4294967296 :=
        fun t ht => hlt t (List.mem_cons_of_mem _ ht)
      have hel := elapsed_of_le h now (le_trans hu hnow) hnlt
      cases hg : h.gateOpen now with
      | false =>
        have hrun : h.run now temp = h := run_of_closed h now temp hg
        have hI := ih h now (le_trans hu hnow) hrest hlt2
        have hex : h.execTimes (HeaterOp.run now temp :: ops) = h.execTimes ops := by
          rw [execTimes, hg, hrun]
          rfl
        have hst : h.steps (HeaterOp.run now temp :: ops) = h.steps ops := by
          rw [steps]
          show (h.run now temp).steps ops = h.steps ops
          rw [hrun]
        rw [hex, hst]
        exact ⟨hI.1, hI.2.1, hI.2.2.1, fun t ht => List.mem_cons_of_mem _ (hI.2.2.2 t ht)⟩
      | true =>
        have hopen := (gateOpen_iff h now).mp hg
        rw [hel] at hopen
        have hu2 : (h.run now temp).lastPIDTime = h.lastPIDTime + h._loopInterval := by
          rw [run_lastPIDTime_of_open h now temp hg]
          omega
        have hP2 : (h.run now temp)._loopInterval = h._loopInterval := run_loopInterval h now temp
        have hI := ih (h.run now temp) now (by rw [hu2]; omega) hrest hlt2
        rw [hu2, hP2] at hI
        have hex : h.execTimes (HeaterOp.run now temp :: ops) =
            now :: (h.run now temp).execTimes ops := by
          rw [execTimes, hg]
          rfl
        have hst : h.steps (HeaterOp.run now temp :: ops) = (h.run now temp).steps ops := rfl
        rw [hex, hst]
        refine ⟨?_, hI.2.1, ?_, ?_⟩
        · rw [hI.1, List.length_cons]
          ring
        · intro k t hk
          cases k with
          | zero =>
            simp only [List.getElem?_cons_zero, Option.some.injEq] at hk
            subst hk
            omega
          | succ k =>
            rw [List.getElem?_cons_succ] at hk
            have := hI.2.2.1 k t hk
            have e : h.lastPIDTime + (k + 1 + 1) * h._loopInterval =
                h.lastPIDTime + h._loopInterval + (k + 1) * h._loopInterval := by ring
            rw [e]
            exact this
        · intro t ht
          rcases List.mem_cons.mp ht with rfl | ht2
          · exact List.mem_cons_self _ _
          · exact List.mem_cons_of_mem _ (hI.2.2.2 t ht2)

/-! ### The temperature estimator -/

/-- For a sample within the scale and a calibration that does not overflow, the
divisor and the resistance of `updateTemp` are the plain difference and quotient. -/
theorem thermResistance_of_mem (h : Heater) (a : Int) (ha : 1 ≤ a)
    (hb : a ≤ (h._ADCMax : Int) - 1) (hM : h._ADCMax < 4294967296)
    (hno : h._thermPullupR * h._ADCMax ≤ 4294967296) :
    h.thermDivisor a = h._ADCMax - a.toNat ∧ 0 < h._ADCMax - a.toNat ∧
    h.thermResistance a = some (h._thermPullupR * a.toNat / (h._ADCMax - a.toNat)) := by
  have hu : toUnsigned a = a.toNat := by
    unfold toUnsigned
    omega
  have hlt : a.toNat < h._ADCMax := by omega
  have hd : h.thermDivisor a = h._ADCMax - a.toNat := by
    unfold thermDivisor
    rw [hu]
    omega
  have hnum : h._thermPullupR * a.toNat < 4294967296 := by
    rcases Nat.eq_zero_or_pos h._thermPullupR with hz | hpos
    · rw [hz]
      omega
    · exact lt_of_lt_of_le (Nat.mul_lt_mul_of_pos_left hlt hpos) hno
  refine ⟨hd, by omega, ?_⟩
  unfold thermResistance
  rw [hd, hu, if_neg (by omega), Nat.mod_eq_of_lt hnum]

end Heater

/-! ### Pin traces -/

/-- Appending one write changes the state of its pin and of no other pin. -/
theorem pinState_append_single (log : List PinWrite) (w : PinWrite) (pin : Int) :
    pinState (log ++ [w]) pin = if w.pin = pin then some w.value else pinState log pin := by
  unfold pinState
  by_cases hp : w.pin = pin
  · simp [List.filter_append, List.filter_cons, hp]
  · simp [List.filter_append, List.filter_cons, hp]

/-! ### The stepper -/

namespace Stepper

theorem driverEnabled_setDir (s : Stepper) (dir : Bool) (hp : s._dirPin ≠ s._sleepPin) :
    (s.setDir dir).driverEnabled = s.driverEnabled := by
  unfold driverEnabled
  have e : pinState (s.setDir dir).pinLog (s.setDir dir)._sleepPin =
      pinState s.pinLog s._sleepPin := by
    show pinState (s.pinLog ++ [PinWrite.digitalWrite s._dirPin dir]) s._sleepPin =
      pinState s.pinLog s._sleepPin
    rw [pinState_append_single, if_neg]
    exact hp
  rw [e]

end Stepper

/-! ### Construction and knob -/

/-- On zeroed storage the constructor yields a disabled heater with zero error
memory, both outputs written `LOW` and the fresh sample in `curTemp`. -/
theorem Heater.construct_of_zeroed (heaterPin thermPin fanPin : Nat)
    (SH_A SH_B SH_C kp ki kd : ℚ)
    (maxPWM loopInterval ADCResolution thermPullupR : Nat) (now : Nat) (temp : ℚ) :
    (Heater.construct zeroedStorage heaterPin thermPin fanPin SH_A SH_B SH_C kp ki kd
      maxPWM loopInterval ADCResolution thermPullupR now temp)._enabled = false ∧
    (Heater.construct zeroedStorage heaterPin thermPin fanPin SH_A SH_B SH_C kp ki kd
      maxPWM loopInterval ADCResolution thermPullupR now temp).iError = 0 ∧
    (Heater.construct zeroedStorage heaterPin thermPin fanPin SH_A SH_B SH_C kp ki kd
      maxPWM loopInterval ADCResolution thermPullupR now temp).lastError = 0 ∧
    (Heater.construct zeroedStorage heaterPin thermPin fanPin SH_A SH_B SH_C kp ki kd
      maxPWM loopInterval ADCResolution thermPullupR now temp).curTemp = temp ∧
    (Heater.construct zeroedStorage heaterPin thermPin fanPin SH_A SH_B SH_C kp ki kd
      maxPWM loopInterval ADCResolution thermPullupR now temp).pinLog =
        [PinWrite.digitalWrite heaterPin false, PinWrite.digitalWrite fanPin false] :=
  ⟨rfl, rfl, rfl, rfl, rfl⟩

/-- A raw output beyond the duty limit is asserted as the limit. -/
theorem Heater.PWMOUT_of_large (h : Heater) (hmax : 0 ≤ h._maxPWM)
    (hfit : h._maxPWM < INT_MAX) (hraw : (h._maxPWM : ℚ) + 1 ≤ h.pidRaw) :
    h.PIDOUT ≠ h.PWMOUT ∧ h.PWMOUT = h._maxPWM := by
  have ht := succ_le_truncate hmax hraw
  have hP : h.PIDOUT = max (-2147483648) (min (truncate h.pidRaw) 2147483647) := rfl
  have hW : h.PWMOUT = min (max h.PIDOUT 0) h._maxPWM := rfl
  unfold INT_MAX at hfit
  omega

/-- A raw output strictly between -1 and `_maxPWM + 1` is asserted truncated toward
zero, without saturation. -/
theorem Heater.PWMOUT_of_band (h : Heater) (hmax : 0 ≤ h._maxPWM)
    (hfit : h._maxPWM < INT_MAX) (h1 : -1 < h.pidRaw) (h2 : h.pidRaw < (h._maxPWM : ℚ) + 1) :
    h.PWMOUT = h.PIDOUT ∧ h.PWMOUT = truncate h.pidRaw := by
  have hb := truncate_mem_band hmax h1 h2
  have hP : h.PIDOUT = max (-2147483648) (min (truncate h.pidRaw) 2147483647) := rfl
  have hW : h.PWMOUT = min (max h.PIDOUT 0) h._maxPWM := rfl
  unfold INT_MAX at hfit
  omega

/-- The encoder round trip: a detent position whose count fits the `int` comes back
unchanged when it is non-negative and one too high when it is negative. -/
theorem Knob.encRead_encWrite (k : Knob) (pos : Int) (hlo : -536870912 ≤ pos)
    (hhi : pos ≤ 536870911) :
    (k.encWrite pos).encRead = if 0 ≤ pos then pos else pos + 1 := by
  have h1 : wrapInt (pos * 4) = pos * 4 := by
    unfold wrapInt
    omega
  have h2 : wrapInt (pos * 4 + 2) = pos * 4 + 2 := by
    unfold wrapInt
    omega
  show Int.tdiv (wrapInt (wrapInt (pos * 4) + 2)) 4 = if 0 ≤ pos then pos else pos + 1
  rw [h1, h2]
  split_ifs with hp
  · rw [Int.tdiv_eq_ediv (by omega) (by norm_num)]
    omega
  · have hneg : pos * 4 + 2 = -(((-pos) * 4 - 2)) := by ring
    rw [hneg, Int.neg_tdiv, Int.tdiv_eq_ediv (by omega) (by norm_num)]
    omega

/-! ### Evaluated control steps and periods -/

/-- The control step of the configured heater sampled at 200 degrees: error, trial
integral, derivative and raw output as the code computes them, all finite. -/
theorem configuredHeater_step :
    (configuredHeater.sampled 200).error = 40 ∧
    (configuredHeater.sampled 200).newIError = (13421773 / 33554432) ∧
    (configuredHeater.sampled 200).dError = (16384001 / 4096) ∧
    (configuredHeater.sampled 200).pidRaw = (8870401 / 256) ∧
    (configuredHeater.sampled 200).stepFinite := by
  have e1 : fl32 (240 - 200) = 40 :=
    fl32_eval_pos (240 - 200) 40 5 10485760 (by norm_num) (by norm_num) (by norm_num) (by norm_num)
      (by norm_num [abs_lt]) (by norm_num)
  have e2 : fl32 (40 * 10000) = 400000 :=
    fl32_eval_pos (40 * 10000) 400000 18 12800000 (by norm_num) (by norm_num) (by norm_num) (by
      norm_num) (by norm_num [abs_lt]) (by norm_num)
  have e3 : fl32 (400000 / 1000000) = (13421773 / 33554432) :=
    fl32_eval_pos (400000 / 1000000) (13421773 / 33554432) (-2) 13421773 (by norm_num) (by
      norm_num) (by norm_num) (by norm_num) (by norm_num [abs_lt]) (by norm_num)
  have e4 : fl32 (0 + (13421773 / 33554432)) = (13421773 / 33554432) :=
    fl32_eval_pos (0 + (13421773 / 33554432)) (13421773 / 33554432) (-2) 13421773 (by norm_num) (by
      norm_num) (by norm_num) (by norm_num) (by norm_num [abs_lt]) (by norm_num)
  have e5 : fl32 (40 - 0) = 40 :=
    fl32_eval_pos (40 - 0) 40 5 10485760 (by norm_num) (by norm_num) (by norm_num) (by norm_num)
      (by norm_num [abs_lt]) (by norm_num)
  have e6 : fl32 (40 / 10000) = (8589935 / 2147483648) :=
    fl32_eval_pos (40 / 10000) (8589935 / 2147483648) (-8) 8589935 (by norm_num) (by norm_num) (by
      norm_num) (by norm_num) (by norm_num [abs_lt]) (by norm_num)
  have e7 : fl32 ((8589935 / 2147483648) * 1000000) = (16384001 / 4096) :=
    fl32_eval_pos ((8589935 / 2147483648) * 1000000) (16384001 / 4096) 11 16384001 (by norm_num)
      (by norm_num) (by norm_num) (by norm_num) (by norm_num [abs_lt]) (by norm_num)
  have e8 : fl32 (30 * 40) = 1200 :=
    fl32_eval_pos (30 * 40) 1200 10 9830400 (by norm_num) (by norm_num) (by norm_num) (by norm_num)
      (by norm_num [abs_lt]) (by norm_num)
  have e9 : fl32 ((14103347 / 524288) * 0) = 0 := by
    rw [show ((14103347 / 524288) * 0) = (0 : ℚ) by norm_num]
    exact fl32_zero
  have e10 : fl32 (1200 + 0) = 1200 :=
    fl32_eval_pos (1200 + 0) 1200 10 9830400 (by norm_num) (by norm_num) (by norm_num) (by
      norm_num) (by norm_num [abs_lt]) (by norm_num)
  have e11 : fl32 ((8768717 / 1048576) * (16384001 / 4096)) = (8563201 / 256) :=
    fl32_eval_pos ((8768717 / 1048576) * (16384001 / 4096)) (8563201 / 256) 15 8563201 (by
      norm_num) (by norm_num) (by norm_num) (by norm_num) (by norm_num [abs_lt]) (by norm_num)
  have e12 : fl32 (1200 + (8563201 / 256)) = (8870401 / 256) :=
    fl32_eval_pos (1200 + (8563201 / 256)) (8870401 / 256) 15 8870401 (by norm_num) (by norm_num)
      (by norm_num) (by norm_num) (by norm_num [abs_lt]) (by norm_num)
  refine ⟨?_, ?_, ?_, ?_, ?_⟩
  · show fl32 (240 - 200) = 40
    simp only [e1]
  · show max (min (fl32 (0 + fl32 (fl32 (fl32 (240 - 200) * fl32 ((10000 : ℕ) : ℚ)) / 1000000)))
      10) 0 = (13421773 / 33554432)
    simp only [e1, fl32_PID_LOOP_INTERVAL, e2, e3, e4]
    norm_num
  · show fl32 (fl32 (fl32 (fl32 (240 - 200) - 0) / fl32 ((10000 : ℕ) : ℚ)) * 1000000) = (16384001 /
      4096)
    simp only [e1, e5, fl32_PID_LOOP_INTERVAL, e6, e7]
  · show fl32 (fl32 (fl32 (30 * fl32 (240 - 200)) + fl32 (fl32 (269 / 10) * 0)) + fl32 (fl32 (83625
      / 10000) * fl32 (fl32 (fl32 (fl32 (240 - 200) - 0) / fl32 ((10000 : ℕ) : ℚ)) * 1000000))) =
      (8870401 / 256)
    simp only [e1, e8, fl32_HEAT_KI, e9, e10, fl32_HEAT_KD, e5, fl32_PID_LOOP_INTERVAL, e6, e7,
      e11, e12]
  · have hv : (configuredHeater.sampled 200).stepValues = [40, 400000, (13421773 / 33554432),
        (13421773 / 33554432), 40, (8589935 / 2147483648), (16384001 / 4096), 1200, 0, 1200,
        (8563201 / 256), (8870401 / 256)] := by
      show [fl32 (240 - 200), fl32 (fl32 (240 - 200) * fl32 ((10000 : ℕ) : ℚ)), fl32 (fl32 (fl32
        (240 - 200) * fl32 ((10000 : ℕ) : ℚ)) / 1000000), fl32 (0 + fl32 (fl32 (fl32 (240 - 200) *
        fl32 ((10000 : ℕ) : ℚ)) / 1000000)), fl32 (fl32 (240 - 200) - 0), fl32 (fl32 (fl32 (240 -
        200) - 0) / fl32 ((10000 : ℕ) : ℚ)), fl32 (fl32 (fl32 (fl32 (240 - 200) - 0) / fl32 ((10000
        : ℕ) : ℚ)) * 1000000), fl32 (30 * fl32 (240 - 200)), fl32 (fl32 (269 / 10) * 0), fl32 (fl32
        (30 * fl32 (240 - 200)) + fl32 (fl32 (269 / 10) * 0)), fl32 (fl32 (83625 / 10000) * fl32
        (fl32 (fl32 (fl32 (240 - 200) - 0) / fl32 ((10000 : ℕ) : ℚ)) * 1000000)), fl32 (fl32 (fl32
        (30 * fl32 (240 - 200)) + fl32 (fl32 (269 / 10) * 0)) + fl32 (fl32 (83625 / 10000) * fl32
        (fl32 (fl32 (fl32 (240 - 200) - 0) / fl32 ((10000 : ℕ) : ℚ)) * 1000000)))] = [40, 400000,
        (13421773 / 33554432), (13421773 / 33554432), 40, (8589935 / 2147483648), (16384001 /
        4096), 1200, 0, 1200, (8563201 / 256), (8870401 / 256)]
      simp only [e1, fl32_PID_LOOP_INTERVAL, e2, e3, e4, e5, e6, e7, e8, fl32_HEAT_KI, e9, e10,
        fl32_HEAT_KD, e11, e12]
    refine ⟨by decide, ?_⟩
    rw [hv]
    norm_num [FLT_MAX, abs_le]

/-- The control step of the near-target heater sampled at 240.90625 degrees. -/
theorem nearTargetHeater_step :
    (nearTargetHeater.sampled (7709 / 32)).error = (-29 / 32) ∧
    (nearTargetHeater.sampled (7709 / 32)).newIError = (4156293 / 4194304) ∧
    (nearTargetHeater.sampled (7709 / 32)).dError = 0 ∧
    (nearTargetHeater.sampled (7709 / 32)).pidRaw = (-150733 / 524288) ∧
    (nearTargetHeater.sampled (7709 / 32)).stepFinite := by
  have e1 : fl32 (240 - (7709 / 32)) = (-29 / 32) :=
    fl32_eval_neg (240 - (7709 / 32)) (-29 / 32) (-1) (-15204352) (by norm_num) (by norm_num) (by
      norm_num) (by norm_num) (by norm_num [abs_lt]) (by norm_num)
  have e2 : fl32 ((-29 / 32) * 10000) = (-18125 / 2) :=
    fl32_eval_neg ((-29 / 32) * 10000) (-18125 / 2) 13 (-9280000) (by norm_num) (by norm_num) (by
      norm_num) (by norm_num) (by norm_num [abs_lt]) (by norm_num)
  have e3 : fl32 ((-18125 / 2) / 1000000) = (-9730785 / 1073741824) :=
    fl32_eval_neg ((-18125 / 2) / 1000000) (-9730785 / 1073741824) (-7) (-9730785) (by norm_num)
      (by norm_num) (by norm_num) (by norm_num) (by norm_num [abs_lt]) (by norm_num)
  have e4 : fl32 (1 + (-9730785 / 1073741824)) = (4156293 / 4194304) :=
    fl32_eval_pos (1 + (-9730785 / 1073741824)) (4156293 / 4194304) (-1) 16625172 (by norm_num) (by
      norm_num) (by norm_num) (by norm_num) (by norm_num [abs_lt]) (by norm_num)
  have e5 : fl32 ((-29 / 32) - (-29 / 32)) = 0 := by
    rw [show ((-29 / 32) - (-29 / 32)) = (0 : ℚ) by norm_num]
    exact fl32_zero
  have e6 : fl32 (0 / 10000) = 0 := by
    rw [show (0 / 10000) = (0 : ℚ) by norm_num]
    exact fl32_zero
  have e7 : fl32 (0 * 1000000) = 0 := by
    rw [show (0 * 1000000) = (0 : ℚ) by norm_num]
    exact fl32_zero
  have e8 : fl32 (30 * (-29 / 32)) = (-435 / 16) :=
    fl32_eval_neg (30 * (-29 / 32)) (-435 / 16) 4 (-14254080) (by norm_num) (by norm_num) (by
      norm_num) (by norm_num) (by norm_num [abs_lt]) (by norm_num)
  have e9 : fl32 ((14103347 / 524288) * 1) = (14103347 / 524288) :=
    fl32_eval_pos ((14103347 / 524288) * 1) (14103347 / 524288) 4 14103347 (by norm_num) (by
      norm_num) (by norm_num) (by norm_num) (by norm_num [abs_lt]) (by norm_num)
  have e10 : fl32 ((-435 / 16) + (14103347 / 524288)) = (-150733 / 524288) :=
    fl32_eval_neg ((-435 / 16) + (14103347 / 524288)) (-150733 / 524288) (-2) (-9646912) (by
      norm_num) (by norm_num) (by norm_num) (by norm_num) (by norm_num [abs_lt]) (by norm_num)
  have e11 : fl32 ((8768717 / 1048576) * 0) = 0 := by
    rw [show ((8768717 / 1048576) * 0) = (0 : ℚ) by norm_num]
    exact fl32_zero
  have e12 : fl32 ((-150733 / 524288) + 0) = (-150733 / 524288) :=
    fl32_eval_neg ((-150733 / 524288) + 0) (-150733 / 524288) (-2) (-9646912) (by norm_num) (by
      norm_num) (by norm_num) (by norm_num) (by norm_num [abs_lt]) (by norm_num)
  refine ⟨?_, ?_, ?_, ?_, ?_⟩
  · show fl32 (240 - (7709 / 32)) = (-29 / 32)
    simp only [e1]
  · show max (min (fl32 (1 + fl32 (fl32 (fl32 (240 - (7709 / 32)) * fl32 ((10000 : ℕ) : ℚ)) /
      1000000))) 10) 0 = (4156293 / 4194304)
    simp only [e1, fl32_PID_LOOP_INTERVAL, e2, e3, e4]
    norm_num
  · show fl32 (fl32 (fl32 (fl32 (240 - (7709 / 32)) - (-29 / 32)) / fl32 ((10000 : ℕ) : ℚ)) *
      1000000) = 0
    simp only [e1, e5, fl32_PID_LOOP_INTERVAL, e6, e7]
  · show fl32 (fl32 (fl32 (30 * fl32 (240 - (7709 / 32))) + fl32 (fl32 (269 / 10) * 1)) + fl32
      (fl32 (83625 / 10000) * fl32 (fl32 (fl32 (fl32 (240 - (7709 / 32)) - (-29 / 32)) / fl32
      ((10000 : ℕ) : ℚ)) * 1000000))) = (-150733 / 524288)
    simp only [e1, e8, fl32_HEAT_KI, e9, e10, fl32_HEAT_KD, e5, fl32_PID_LOOP_INTERVAL, e6, e7,
      e11, e12]
  · have hv : (nearTargetHeater.sampled (7709 / 32)).stepValues = [(-29 / 32), (-18125 / 2),
        (-9730785 / 1073741824), (4156293 / 4194304), 0, 0, 0, (-435 / 16), (14103347 / 524288),
        (-150733 / 524288), 0, (-150733 / 524288)] := by
      show [fl32 (240 - (7709 / 32)), fl32 (fl32 (240 - (7709 / 32)) * fl32 ((10000 : ℕ) : ℚ)),
        fl32 (fl32 (fl32 (240 - (7709 / 32)) * fl32 ((10000 : ℕ) : ℚ)) / 1000000), fl32 (1 + fl32
        (fl32 (fl32 (240 - (7709 / 32)) * fl32 ((10000 : ℕ) : ℚ)) / 1000000)), fl32 (fl32 (240 -
        (7709 / 32)) - (-29 / 32)), fl32 (fl32 (fl32 (240 - (7709 / 32)) - (-29 / 32)) / fl32
        ((10000 : ℕ) : ℚ)), fl32 (fl32 (fl32 (fl32 (240 - (7709 / 32)) - (-29 / 32)) / fl32 ((10000
        : ℕ) : ℚ)) * 1000000), fl32 (30 * fl32 (240 - (7709 / 32))), fl32 (fl32 (269 / 10) * 1),
        fl32 (fl32 (30 * fl32 (240 - (7709 / 32))) + fl32 (fl32 (269 / 10) * 1)), fl32 (fl32 (83625
        / 10000) * fl32 (fl32 (fl32 (fl32 (240 - (7709 / 32)) - (-29 / 32)) / fl32 ((10000 : ℕ) :
        ℚ)) * 1000000)), fl32 (fl32 (fl32 (30 * fl32 (240 - (7709 / 32))) + fl32 (fl32 (269 / 10) *
        1)) + fl32 (fl32 (83625 / 10000) * fl32 (fl32 (fl32 (fl32 (240 - (7709 / 32)) - (-29 / 32))
        / fl32 ((10000 : ℕ) : ℚ)) * 1000000)))] = [(-29 / 32), (-18125 / 2), (-9730785 /
        1073741824), (4156293 / 4194304), 0, 0, 0, (-435 / 16), (14103347 / 524288), (-150733 /
        524288), 0, (-150733 / 524288)]
      simp only [e1, fl32_PID_LOOP_INTERVAL, e2, e3, e4, e5, e6, e7, e8, fl32_HEAT_KI, e9, e10,
        fl32_HEAT_KD, e11, e12]
    refine ⟨by decide, ?_⟩
    rw [hv]
    norm_num [FLT_MAX, abs_le]

/-- The control step of the approaching heater sampled at 236.625 degrees. -/
theorem approachingHeater_step :
    (approachingHeater.sampled (1893 / 8)).error = (27 / 8) ∧
    (approachingHeater.sampled (1893 / 8)).newIError = (9059697 / 268435456) ∧
    (approachingHeater.sampled (1893 / 8)).dError = 0 ∧
    (approachingHeater.sampled (1893 / 8)).pidRaw = (405 / 4) ∧
    (approachingHeater.sampled (1893 / 8)).stepFinite := by
  have e1 : fl32 (240 - (1893 / 8)) = (27 / 8) :=
    fl32_eval_pos (240 - (1893 / 8)) (27 / 8) 1 14155776 (by norm_num) (by norm_num) (by norm_num)
      (by norm_num) (by norm_num [abs_lt]) (by norm_num)
  have e2 : fl32 ((27 / 8) * 10000) = 33750 :=
    fl32_eval_pos ((27 / 8) * 10000) 33750 15 8640000 (by norm_num) (by norm_num) (by norm_num) (by
      norm_num) (by norm_num [abs_lt]) (by norm_num)
  have e3 : fl32 (33750 / 1000000) = (9059697 / 268435456) :=
    fl32_eval_pos (33750 / 1000000) (9059697 / 268435456) (-5) 9059697 (by norm_num) (by norm_num)
      (by norm_num) (by norm_num) (by norm_num [abs_lt]) (by norm_num)
  have e4 : fl32 (0 + (9059697 / 268435456)) = (9059697 / 268435456) :=
    fl32_eval_pos (0 + (9059697 / 268435456)) (9059697 / 268435456) (-5) 9059697 (by norm_num) (by
      norm_num) (by norm_num) (by norm_num) (by norm_num [abs_lt]) (by norm_num)
  have e5 : fl32 ((27 / 8) - (27 / 8)) = 0 := by
    rw [show ((27 / 8) - (27 / 8)) = (0 : ℚ) by norm_num]
    exact fl32_zero
  have e6 : fl32 (0 / 10000) = 0 := by
    rw [show (0 / 10000) = (0 : ℚ) by norm_num]
    exact fl32_zero
  have e7 : fl32 (0 * 1000000) = 0 := by
    rw [show (0 * 1000000) = (0 : ℚ) by norm_num]
    exact fl32_zero
  have e8 : fl32 (30 * (27 / 8)) = (405 / 4) :=
    fl32_eval_pos (30 * (27 / 8)) (405 / 4) 6 13271040 (by norm_num) (by norm_num) (by norm_num)
      (by norm_num) (by norm_num [abs_lt]) (by norm_num)
  have e9 : fl32 ((14103347 / 524288) * 0) = 0 := by
    rw [show ((14103347 / 524288) * 0) = (0 : ℚ) by norm_num]
    exact fl32_zero
  have e10 : fl32 ((405 / 4) + 0) = (405 / 4) :=
    fl32_eval_pos ((405 / 4) + 0) (405 / 4) 6 13271040 (by norm_num) (by norm_num) (by norm_num)
      (by norm_num) (by norm_num [abs_lt]) (by norm_num)
  have e11 : fl32 ((8768717 / 1048576) * 0) = 0 := by
    rw [show ((8768717 / 1048576) * 0) = (0 : ℚ) by norm_num]
    exact fl32_zero
  refine ⟨?_, ?_, ?_, ?_, ?_⟩
  · show fl32 (240 - (1893 / 8)) = (27 / 8)
    simp only [e1]
  · show max (min (fl32 (0 + fl32 (fl32 (fl32 (240 - (1893 / 8)) * fl32 ((10000 : ℕ) : ℚ)) /
      1000000))) 10) 0 = (9059697 / 268435456)
    simp only [e1, fl32_PID_LOOP_INTERVAL, e2, e3, e4]
    norm_num
  · show fl32 (fl32 (fl32 (fl32 (240 - (1893 / 8)) - (27 / 8)) / fl32 ((10000 : ℕ) : ℚ)) * 1000000)
      = 0
    simp only [e1, e5, fl32_PID_LOOP_INTERVAL, e6, e7]
  · show fl32 (fl32 (fl32 (30 * fl32 (240 - (1893 / 8))) + fl32 (fl32 (269 / 10) * 0)) + fl32 (fl32
      (83625 / 10000) * fl32 (fl32 (fl32 (fl32 (240 - (1893 / 8)) - (27 / 8)) / fl32 ((10000 : ℕ) :
      ℚ)) * 1000000))) = (405 / 4)
    simp only [e1, e8, fl32_HEAT_KI, e9, e10, fl32_HEAT_KD, e5, fl32_PID_LOOP_INTERVAL, e6, e7, e11]
  · have hv : (approachingHeater.sampled (1893 / 8)).stepValues = [(27 / 8), 33750, (9059697 /
        268435456), (9059697 / 268435456), 0, 0, 0, (405 / 4), 0, (405 / 4), 0, (405 / 4)] := by
      show [fl32 (240 - (1893 / 8)), fl32 (fl32 (240 - (1893 / 8)) * fl32 ((10000 : ℕ) : ℚ)), fl32
        (fl32 (fl32 (240 - (1893 / 8)) * fl32 ((10000 : ℕ) : ℚ)) / 1000000), fl32 (0 + fl32 (fl32
        (fl32 (240 - (1893 / 8)) * fl32 ((10000 : ℕ) : ℚ)) / 1000000)), fl32 (fl32 (240 - (1893 /
        8)) - (27 / 8)), fl32 (fl32 (fl32 (240 - (1893 / 8)) - (27 / 8)) / fl32 ((10000 : ℕ) : ℚ)),
        fl32 (fl32 (fl32 (fl32 (240 - (1893 / 8)) - (27 / 8)) / fl32 ((10000 : ℕ) : ℚ)) * 1000000),
        fl32 (30 * fl32 (240 - (1893 / 8))), fl32 (fl32 (269 / 10) * 0), fl32 (fl32 (30 * fl32 (240
        - (1893 / 8))) + fl32 (fl32 (269 / 10) * 0)), fl32 (fl32 (83625 / 10000) * fl32 (fl32 (fl32
        (fl32 (240 - (1893 / 8)) - (27 / 8)) / fl32 ((10000 : ℕ) : ℚ)) * 1000000)), fl32 (fl32
        (fl32 (30 * fl32 (240 - (1893 / 8))) + fl32 (fl32 (269 / 10) * 0)) + fl32 (fl32 (83625 /
        10000) * fl32 (fl32 (fl32 (fl32 (240 - (1893 / 8)) - (27 / 8)) / fl32 ((10000 : ℕ) : ℚ)) *
        1000000)))] = [(27 / 8), 33750, (9059697 / 268435456), (9059697 / 268435456), 0, 0, 0, (405
        / 4), 0, (405 / 4), 0, (405 / 4)]
      simp only [e1, fl32_PID_LOOP_INTERVAL, e2, e3, e4, e5, e6, e7, e8, fl32_HEAT_KI, e9, e10,
        fl32_HEAT_KD, e11]
    refine ⟨by decide, ?_⟩
    rw [hv]
    norm_num [FLT_MAX, abs_le]

/-- The control step of the heater at the edge of saturation, sampled at 233 degrees:
the `float` sum of the raw output rounds up to 221. -/
theorem saturationEdgeHeater_step :
    (saturationEdgeHeater.sampled 233).error = 7 ∧
    (saturationEdgeHeater.sampled 233).newIError = (8034973 / 16777216) ∧
    (saturationEdgeHeater.sampled 233).dError = 0 ∧
    (saturationEdgeHeater.sampled 233).pidRaw = 221 ∧
    (saturationEdgeHeater.sampled 233).stepFinite := by
  have e1 : fl32 (240 - 233) = 7 :=
    fl32_eval_pos (240 - 233) 7 2 14680064 (by norm_num) (by norm_num) (by norm_num) (by norm_num)
      (by norm_num [abs_lt]) (by norm_num)
  have e2 : fl32 (7 * 10000) = 70000 :=
    fl32_eval_pos (7 * 10000) 70000 16 8960000 (by norm_num) (by norm_num) (by norm_num) (by
      norm_num) (by norm_num [abs_lt]) (by norm_num)
  have e3 : fl32 (70000 / 1000000) = (9395241 / 134217728) :=
    fl32_eval_pos (70000 / 1000000) (9395241 / 134217728) (-4) 9395241 (by norm_num) (by norm_num)
      (by norm_num) (by norm_num) (by norm_num [abs_lt]) (by norm_num)
  have e4 : fl32 ((857571 / 2097152) + (9395241 / 134217728)) = (8034973 / 16777216) :=
    fl32_eval_pos ((857571 / 2097152) + (9395241 / 134217728)) (8034973 / 16777216) (-2) 16069946
      (by norm_num) (by norm_num) (by norm_num) (by norm_num) (by norm_num [abs_lt]) (by norm_num)
  have e5 : fl32 (7 - 7) = 0 := by
    rw [show (7 - 7) = (0 : ℚ) by norm_num]
    exact fl32_zero
  have e6 : fl32 (0 / 10000) = 0 := by
    rw [show (0 / 10000) = (0 : ℚ) by norm_num]
    exact fl32_zero
  have e7 : fl32 (0 * 1000000) = 0 := by
    rw [show (0 * 1000000) = (0 : ℚ) by norm_num]
    exact fl32_zero
  have e8 : fl32 (30 * 7) = 210 :=
    fl32_eval_pos (30 * 7) 210 7 13762560 (by norm_num) (by norm_num) (by norm_num) (by norm_num)
      (by norm_num [abs_lt]) (by norm_num)
  have e9 : fl32 ((14103347 / 524288) * (857571 / 2097152)) = (5767165 / 524288) :=
    fl32_eval_pos ((14103347 / 524288) * (857571 / 2097152)) (5767165 / 524288) 3 11534330 (by
      norm_num) (by norm_num) (by norm_num) (by norm_num) (by norm_num [abs_lt]) (by norm_num)
  have e10 : fl32 (210 + (5767165 / 524288)) = 221 :=
    fl32_eval_pos (210 + (5767165 / 524288)) 221 7 14483456 (by norm_num) (by norm_num) (by
      norm_num) (by norm_num) (by norm_num [abs_lt]) (by norm_num)
  have e11 : fl32 ((8768717 / 1048576) * 0) = 0 := by
    rw [show ((8768717 / 1048576) * 0) = (0 : ℚ) by norm_num]
    exact fl32_zero
  have e12 : fl32 (221 + 0) = 221 :=
    fl32_eval_pos (221 + 0) 221 7 14483456 (by norm_num) (by norm_num) (by norm_num) (by norm_num)
      (by norm_num [abs_lt]) (by norm_num)
  refine ⟨?_, ?_, ?_, ?_, ?_⟩
  · show fl32 (240 - 233) = 7
    simp only [e1]
  · show max (min (fl32 ((857571 / 2097152) + fl32 (fl32 (fl32 (240 - 233) * fl32 ((10000 : ℕ) :
      ℚ)) / 1000000))) 10) 0 = (8034973 / 16777216)
    simp only [e1, fl32_PID_LOOP_INTERVAL, e2, e3, e4]
    norm_num
  · show fl32 (fl32 (fl32 (fl32 (240 - 233) - 7) / fl32 ((10000 : ℕ) : ℚ)) * 1000000) = 0
    simp only [e1, e5, fl32_PID_LOOP_INTERVAL, e6, e7]
  · show fl32 (fl32 (fl32 (30 * fl32 (240 - 233)) + fl32 (fl32 (269 / 10) * (857571 / 2097152))) +
      fl32 (fl32 (83625 / 10000) * fl32 (fl32 (fl32 (fl32 (240 - 233) - 7) / fl32 ((10000 : ℕ) :
      ℚ)) * 1000000))) = 221
    simp only [e1, e8, fl32_HEAT_KI, e9, e10, fl32_HEAT_KD, e5, fl32_PID_LOOP_INTERVAL, e6, e7,
      e11, e12]
  · have hv : (saturationEdgeHeater.sampled 233).stepValues = [7, 70000, (9395241 / 134217728),
        (8034973 / 16777216), 0, 0, 0, 210, (5767165 / 524288), 221, 0, 221] := by
      show [fl32 (240 - 233), fl32 (fl32 (240 - 233) * fl32 ((10000 : ℕ) : ℚ)), fl32 (fl32 (fl32
        (240 - 233) * fl32 ((10000 : ℕ) : ℚ)) / 1000000), fl32 ((857571 / 2097152) + fl32 (fl32
        (fl32 (240 - 233) * fl32 ((10000 : ℕ) : ℚ)) / 1000000)), fl32 (fl32 (240 - 233) - 7), fl32
        (fl32 (fl32 (240 - 233) - 7) / fl32 ((10000 : ℕ) : ℚ)), fl32 (fl32 (fl32 (fl32 (240 - 233)
        - 7) / fl32 ((10000 : ℕ) : ℚ)) * 1000000), fl32 (30 * fl32 (240 - 233)), fl32 (fl32 (269 /
        10) * (857571 / 2097152)), fl32 (fl32 (30 * fl32 (240 - 233)) + fl32 (fl32 (269 / 10) *
        (857571 / 2097152))), fl32 (fl32 (83625 / 10000) * fl32 (fl32 (fl32 (fl32 (240 - 233) - 7)
        / fl32 ((10000 : ℕ) : ℚ)) * 1000000)), fl32 (fl32 (fl32 (30 * fl32 (240 - 233)) + fl32
        (fl32 (269 / 10) * (857571 / 2097152))) + fl32 (fl32 (83625 / 10000) * fl32 (fl32 (fl32
        (fl32 (240 - 233) - 7) / fl32 ((10000 : ℕ) : ℚ)) * 1000000)))] = [7, 70000, (9395241 /
        134217728), (8034973 / 16777216), 0, 0, 0, 210, (5767165 / 524288), 221, 0, 221]
      simp only [e1, fl32_PID_LOOP_INTERVAL, e2, e3, e4, e5, e6, e7, e8, fl32_HEAT_KI, e9, e10,
        fl32_HEAT_KD, e11, e12]
    refine ⟨by decide, ?_⟩
    rw [hv]
    norm_num [FLT_MAX, abs_le]

/-- The control step of the heater constructed on storage that is not zeroed, sampled
at 25 degrees. -/
theorem dirtyHeater_step :
    (dirtyHeater.sampled 25).error = 215 ∧
    (dirtyHeater.sampled 25).newIError = (14994637 / 2097152) ∧
    (dirtyHeater.sampled 25).dError = 21200 ∧
    (dirtyHeater.sampled 25).pidRaw = (367739 / 2) ∧
    (dirtyHeater.sampled 25).stepFinite := by
  have e1 : fl32 (240 - 25) = 215 :=
    fl32_eval_pos (240 - 25) 215 7 14090240 (by norm_num) (by norm_num) (by norm_num) (by norm_num)
      (by norm_num [abs_lt]) (by norm_num)
  have e2 : fl32 (215 * 10000) = 2150000 :=
    fl32_eval_pos (215 * 10000) 2150000 21 8600000 (by norm_num) (by norm_num) (by norm_num) (by
      norm_num) (by norm_num [abs_lt]) (by norm_num)
  have e3 : fl32 (2150000 / 1000000) = (4508877 / 2097152) :=
    fl32_eval_pos (2150000 / 1000000) (4508877 / 2097152) 1 9017754 (by norm_num) (by norm_num) (by
      norm_num) (by norm_num) (by norm_num [abs_lt]) (by norm_num)
  have e4 : fl32 (5 + (4508877 / 2097152)) = (14994637 / 2097152) :=
    fl32_eval_pos (5 + (4508877 / 2097152)) (14994637 / 2097152) 2 14994637 (by norm_num) (by
      norm_num) (by norm_num) (by norm_num) (by norm_num [abs_lt]) (by norm_num)
  have e5 : fl32 (215 - 3) = 212 :=
    fl32_eval_pos (215 - 3) 212 7 13893632 (by norm_num) (by norm_num) (by norm_num) (by norm_num)
      (by norm_num [abs_lt]) (by norm_num)
  have e6 : fl32 (212 / 10000) = (11381663 / 536870912) :=
    fl32_eval_pos (212 / 10000) (11381663 / 536870912) (-6) 11381663 (by norm_num) (by norm_num)
      (by norm_num) (by norm_num) (by norm_num [abs_lt]) (by norm_num)
  have e7 : fl32 ((11381663 / 536870912) * 1000000) = 21200 :=
    fl32_eval_pos ((11381663 / 536870912) * 1000000) 21200 14 10854400 (by norm_num) (by norm_num)
      (by norm_num) (by norm_num) (by norm_num [abs_lt]) (by norm_num)
  have e8 : fl32 (30 * 215) = 6450 :=
    fl32_eval_pos (30 * 215) 6450 12 13209600 (by norm_num) (by norm_num) (by norm_num) (by
      norm_num) (by norm_num [abs_lt]) (by norm_num)
  have e9 : fl32 ((14103347 / 524288) * 5) = (269 / 2) :=
    fl32_eval_pos ((14103347 / 524288) * 5) (269 / 2) 7 8814592 (by norm_num) (by norm_num) (by
      norm_num) (by norm_num) (by norm_num [abs_lt]) (by norm_num)
  have e10 : fl32 (6450 + (269 / 2)) = (13169 / 2) :=
    fl32_eval_pos (6450 + (269 / 2)) (13169 / 2) 12 13485056 (by norm_num) (by norm_num) (by
      norm_num) (by norm_num) (by norm_num [abs_lt]) (by norm_num)
  have e11 : fl32 ((8768717 / 1048576) * 21200) = 177285 :=
    fl32_eval_pos ((8768717 / 1048576) * 21200) 177285 17 11346240 (by norm_num) (by norm_num) (by
      norm_num) (by norm_num) (by norm_num [abs_lt]) (by norm_num)
  have e12 : fl32 ((13169 / 2) + 177285) = (367739 / 2) :=
    fl32_eval_pos ((13169 / 2) + 177285) (367739 / 2) 17 11767648 (by norm_num) (by norm_num) (by
      norm_num) (by norm_num) (by norm_num [abs_lt]) (by norm_num)
  refine ⟨?_, ?_, ?_, ?_, ?_⟩
  · show fl32 (240 - 25) = 215
    simp only [e1]
  · show max (min (fl32 (5 + fl32 (fl32 (fl32 (240 - 25) * fl32 ((10000 : ℕ) : ℚ)) / 1000000))) 10)
      0 = (14994637 / 2097152)
    simp only [e1, fl32_PID_LOOP_INTERVAL, e2, e3, e4]
    norm_num
  · show fl32 (fl32 (fl32 (fl32 (240 - 25) - 3) / fl32 ((10000 : ℕ) : ℚ)) * 1000000) = 21200
    simp only [e1, e5, fl32_PID_LOOP_INTERVAL, e6, e7]
  · show fl32 (fl32 (fl32 (30 * fl32 (240 - 25)) + fl32 (fl32 (269 / 10) * 5)) + fl32 (fl32 (83625
      / 10000) * fl32 (fl32 (fl32 (fl32 (240 - 25) - 3) / fl32 ((10000 : ℕ) : ℚ)) * 1000000))) =
      (367739 / 2)
    simp only [e1, e8, fl32_HEAT_KI, e9, e10, fl32_HEAT_KD, e5, fl32_PID_LOOP_INTERVAL, e6, e7,
      e11, e12]
  · have hv : (dirtyHeater.sampled 25).stepValues = [215, 2150000, (4508877 / 2097152), (14994637 /
        2097152), 212, (11381663 / 536870912), 21200, 6450, (269 / 2), (13169 / 2), 177285, (367739
        / 2)] := by
      show [fl32 (240 - 25), fl32 (fl32 (240 - 25) * fl32 ((10000 : ℕ) : ℚ)), fl32 (fl32 (fl32 (240
        - 25) * fl32 ((10000 : ℕ) : ℚ)) / 1000000), fl32 (5 + fl32 (fl32 (fl32 (240 - 25) * fl32
        ((10000 : ℕ) : ℚ)) / 1000000)), fl32 (fl32 (240 - 25) - 3), fl32 (fl32 (fl32 (240 - 25) -
        3) / fl32 ((10000 : ℕ) : ℚ)), fl32 (fl32 (fl32 (fl32 (240 - 25) - 3) / fl32 ((10000 : ℕ) :
        ℚ)) * 1000000), fl32 (30 * fl32 (240 - 25)), fl32 (fl32 (269 / 10) * 5), fl32 (fl32 (30 *
        fl32 (240 - 25)) + fl32 (fl32 (269 / 10) * 5)), fl32 (fl32 (83625 / 10000) * fl32 (fl32
        (fl32 (fl32 (240 - 25) - 3) / fl32 ((10000 : ℕ) : ℚ)) * 1000000)), fl32 (fl32 (fl32 (30 *
        fl32 (240 - 25)) + fl32 (fl32 (269 / 10) * 5)) + fl32 (fl32 (83625 / 10000) * fl32 (fl32
        (fl32 (fl32 (240 - 25) - 3) / fl32 ((10000 : ℕ) : ℚ)) * 1000000)))] = [215, 2150000,
        (4508877 / 2097152), (14994637 / 2097152), 212, (11381663 / 536870912), 21200, 6450, (269 /
        2), (13169 / 2), 177285, (367739 / 2)]
      simp only [e1, fl32_PID_LOOP_INTERVAL, e2, e3, e4, e5, e6, e7, e8, fl32_HEAT_KI, e9, e10,
        fl32_HEAT_KD, e11, e12]
    refine ⟨by decide, ?_⟩
    rw [hv]
    norm_num [FLT_MAX, abs_le]

/-- The period that `setSpeed` computes at the configured calibration for 10 mm/s. -/
theorem period_at_speed_10 : fl32 (fl32 (fl32 (345 / 100000) / 10) * 1000000) = 345 := by
  have e1 : fl32 ((14817637 / 4294967296) / 10) = (5927055 / 17179869184) :=
    fl32_eval_pos ((14817637 / 4294967296) / 10) (5927055 / 17179869184) (-12) 11854110 (by
      norm_num) (by norm_num) (by norm_num) (by norm_num) (by norm_num [abs_lt]) (by norm_num)
  have e2 : fl32 ((5927055 / 17179869184) * 1000000) = 345 :=
    fl32_eval_pos ((5927055 / 17179869184) * 1000000) 345 8 11304960 (by norm_num) (by norm_num)
      (by norm_num) (by norm_num) (by norm_num [abs_lt]) (by norm_num)
  simp only [fl32_MM_PER_STEP, e1, e2]

/-- The period that `setSpeed` computes at the configured calibration for `2 ^ (-19)`
mm/s. -/
theorem period_at_speed_2_pow_neg_19 : fl32 (fl32 (fl32 (345 / 100000) / (1 / 524288)) * 1000000) =
    1808793600 := by
  have e1 : fl32 ((14817637 / 4294967296) / (1 / 524288)) = (14817637 / 8192) :=
    fl32_eval_pos ((14817637 / 4294967296) / (1 / 524288)) (14817637 / 8192) 10 14817637 (by
      norm_num) (by norm_num) (by norm_num) (by norm_num) (by norm_num [abs_lt]) (by norm_num)
  have e2 : fl32 ((14817637 / 8192) * 1000000) = 1808793600 :=
    fl32_eval_pos ((14817637 / 8192) * 1000000) 1808793600 30 14131200 (by norm_num) (by norm_num)
      (by norm_num) (by norm_num) (by norm_num [abs_lt]) (by norm_num)
  simp only [fl32_MM_PER_STEP, e1, e2]

/-- The period that `setSpeed` computes at the configured calibration for `2 ^ (-20)`
mm/s. -/
theorem period_at_speed_2_pow_neg_20 : fl32 (fl32 (fl32 (345 / 100000) / (1 / 1048576)) * 1000000)
    = 3617587200 := by
  have e1 : fl32 ((14817637 / 4294967296) / (1 / 1048576)) = (14817637 / 4096) :=
    fl32_eval_pos ((14817637 / 4294967296) / (1 / 1048576)) (14817637 / 4096) 11 14817637 (by
      norm_num) (by norm_num) (by norm_num) (by norm_num) (by norm_num [abs_lt]) (by norm_num)
  have e2 : fl32 ((14817637 / 4096) * 1000000) = 3617587200 :=
    fl32_eval_pos ((14817637 / 4096) * 1000000) 3617587200 31 14131200 (by norm_num) (by norm_num)
      (by norm_num) (by norm_num) (by norm_num [abs_lt]) (by norm_num)
  simp only [fl32_MM_PER_STEP, e1, e2]

/-! ## Claims -/

/-- C1: for a heater with `_maxPWM >= 0`, after any sequence of `enable`, `disable`,
`setTargetTemp` and `run` calls, every pin write that a further `run` performs (at
any counter reading, with any sampled temperature) is an `analogWrite` on the heater
pin whose duty lies in `[0, _maxPWM]`. -/
theorem heater_duty_in_range (h0 : Heater) (ops : List HeaterOp) (now : Nat) (temp : ℚ)
    (w : PinWrite) (hmax : 0 ≤ h0._maxPWM)
    (hw : w ∈ (h0.steps ops).newWrites ((h0.steps ops).run now temp)) :
    ∃ duty : Int, w = PinWrite.analogWrite h0._heaterPin duty ∧
      0 ≤ duty ∧ duty ≤ h0._maxPWM := by
  rw [Heater.newWrites_run] at hw
  split_ifs at hw with hc
  · rw [List.mem_singleton] at hw
    have hr := Heater.PWMOUT_range ((h0.steps ops).sampled temp)
      (by
        show 0 ≤ (h0.steps ops)._maxPWM
        rw [Heater.steps_maxPWM]
        exact hmax)
    refine ⟨_, ?_, hr.1, ?_⟩
    · rw [hw, Heater.steps_heaterPin]
    · have := hr.2
      have e : ((h0.steps ops).sampled temp)._maxPWM = h0._maxPWM := by
        show (h0.steps ops)._maxPWM = h0._maxPWM
        exact Heater.steps_maxPWM h0 ops
      rw [e] at this
      exact this
  · simp at hw

/-- Witness of C1: the configured heater, enabled, asked for 240 degrees at 200,
asserts the duty 220 on pin 22 at its first executed tick. -/
theorem heater_duty_in_range_witness :
    (0 : Int) ≤ configuredHeater._maxPWM ∧
    PinWrite.analogWrite 22 220 ∈
      (configuredHeater.steps [HeaterOp.enable]).newWrites
        ((configuredHeater.steps [HeaterOp.enable]).run 10001 200) ∧
    ∃ duty : Int, PinWrite.analogWrite 22 220 =
        PinWrite.analogWrite configuredHeater._heaterPin duty ∧
      0 ≤ duty ∧ duty ≤ configuredHeater._maxPWM :=
  have hw : PinWrite.analogWrite 22 220 ∈
      (configuredHeater.steps [HeaterOp.enable]).newWrites
        ((configuredHeater.steps [HeaterOp.enable]).run 10001 200) := by
    have hraw : ((configuredHeater.steps [HeaterOp.enable]).sampled 200).pidRaw =
        8870401 / 256 := configuredHeater_step.2.2.2.1
    have hm : ((configuredHeater.steps [HeaterOp.enable]).sampled 200)._maxPWM = 220 := by
      decide
    have hW := (Heater.PWMOUT_of_large ((configuredHeater.steps [HeaterOp.enable]).sampled 200)
      (by rw [hm]; decide) (by rw [hm]; decide) (by rw [hm, hraw]; norm_num)).2
    rw [Heater.newWrites_run, if_pos ⟨by decide, by decide⟩, hW, hm]
    decide
  ⟨by decide, hw,
    heater_duty_in_range configuredHeater [HeaterOp.enable] 10001 200 _ (by decide) hw⟩

/-- C2 (as stated, refuted): the configured heater sits 0.90625 degrees above target
with an unchanged error and the committed integral 1; the raw output, about -0.2875,
lies outside `[0, 220]` and differs from the asserted duty 0, yet the executed step
replaces the integral by the trial value, about 0.9909. -/
theorem integral_committed_outside_range :
    nearTargetHeater.gateOpen 10001 = true ∧ nearTargetHeater._enabled = true ∧
    (nearTargetHeater.sampled (7709 / 32)).pidRaw = -150733 / 524288 ∧
    (nearTargetHeater.sampled (7709 / 32)).pidRaw < 0 ∧
    (nearTargetHeater.sampled (7709 / 32)).PWMOUT = 0 ∧
    (nearTargetHeater.run 10001 (7709 / 32)).iError = 4156293 / 4194304 ∧
    (nearTargetHeater.run 10001 (7709 / 32)).iError ≠ nearTargetHeater.iError := by
  have hraw : (nearTargetHeater.sampled (7709 / 32)).pidRaw = -150733 / 524288 :=
    nearTargetHeater_step.2.2.2.1
  have hm : (nearTargetHeater.sampled (7709 / 32))._maxPWM = 220 := by decide
  have hband := Heater.PWMOUT_of_band (nearTargetHeater.sampled (7709 / 32))
    (by rw [hm]; decide) (by rw [hm]; decide) (by rw [hraw]; norm_num)
    (by rw [hm, hraw]; norm_num)
  have ht : truncate (-150733 / 524288) = 0 := by
    have hb := truncate_mem_band (x := -150733 / 524288) (m := 0) le_rfl (by norm_num)
      (by norm_num)
    omega
  have hW : (nearTargetHeater.sampled (7709 / 32)).PWMOUT = 0 := by
    rw [hband.2, hraw, ht]
  have hi : (nearTargetHeater.run 10001 (7709 / 32)).iError = 4156293 / 4194304 := by
    rw [Heater.run_of_enabled _ _ _ (by decide) (by decide)]
    show (if (nearTargetHeater.sampled (7709 / 32)).PWMOUT =
        (nearTargetHeater.sampled (7709 / 32)).PIDOUT
      then (nearTargetHeater.sampled (7709 / 32)).newIError else nearTargetHeater.iError) =
        4156293 / 4194304
    rw [if_pos hband.1, nearTargetHeater_step.2.1]
  refine ⟨by decide, by decide, hraw, ?_, hW, hi, ?_⟩
  · rw [hraw]
    norm_num
  · rw [hi]
    norm_num [nearTargetHeater]

/-- C2 (amended): in an executed control step of an enabled heater with
`0 <= _maxPWM < INT_MAX` whose `float` operations all yield finite values, the raw
output being the `float` that the code computes: the integral is held when the raw
output is at most -1 or at least `_maxPWM + 1`, which is when its integer conversion
falls outside `[0, _maxPWM]` and the asserted duty differs from it; the integral is
replaced by the trial value when the raw output lies strictly between -1 and
`_maxPWM + 1`, which is when the asserted duty equals the integer conversion of the
raw output. -/
theorem integral_held_iff_integer_saturated (h : Heater) (now : Nat) (temp : ℚ)
    (hg : h.gateOpen now = true) (hen : h._enabled = true)
    (_hfin : (h.sampled temp).stepFinite)
    (hmax : 0 ≤ h._maxPWM) (hfit : h._maxPWM < INT_MAX) :
    ((h.sampled temp).pidRaw ≤ -1 ∨ (h._maxPWM : ℚ) + 1 ≤ (h.sampled temp).pidRaw →
      (h.run now temp).iError = h.iError ∧
      (h.sampled temp).PWMOUT ≠ truncate (h.sampled temp).pidRaw) ∧
    (-1 < (h.sampled temp).pidRaw ∧ (h.sampled temp).pidRaw < (h._maxPWM : ℚ) + 1 →
      (h.run now temp).iError = (h.sampled temp).newIError ∧
      (h.sampled temp).PWMOUT = truncate (h.sampled temp).pidRaw) := by
  have hrun : (h.run now temp).iError =
      if (h.sampled temp).PWMOUT = (h.sampled temp).PIDOUT then (h.sampled temp).newIError
      else h.iError := by
    rw [Heater.run_of_enabled h now temp hg hen]
    rfl
  have hPdef : (h.sampled temp).PIDOUT =
      max (-2147483648) (min (truncate (h.sampled temp).pidRaw) 2147483647) := rfl
  have hWdef : (h.sampled temp).PWMOUT = min (max (h.sampled temp).PIDOUT 0) h._maxPWM := rfl
  unfold INT_MAX at hfit
  constructor
  · intro hout
    have hne : (h.sampled temp).PWMOUT ≠ (h.sampled temp).PIDOUT ∧
        (h.sampled temp).PWMOUT ≠ truncate (h.sampled temp).pidRaw := by
      rcases hout with hlo | hhi
      · have := truncate_le_neg_one hlo
        omega
      · have := succ_le_truncate hmax hhi
        omega
    rw [hrun, if_neg hne.1]
    exact ⟨rfl, hne.2⟩
  · rintro ⟨h1, h2⟩
    have hb := truncate_mem_band hmax h1 h2
    have hW : (h.sampled temp).PWMOUT = (h.sampled temp).PIDOUT ∧
        (h.sampled temp).PWMOUT = truncate (h.sampled temp).pidRaw := by
      omega
    rw [hrun, if_pos hW.1]
    exact ⟨rfl, hW.2⟩

/-- Witness of C2 (amended), both branches.  The near-target heater sampled at
240.90625 degrees has the raw output -150733/524288 (about -0.2875), inside the band,
and commits the trial integral.  The heater at the edge of saturation sampled at 233
degrees has the raw output 221 (the real-number sum is below 221, the `float` sum
rounds up), so the asserted duty 220 differs from the converted output and the
integral is held. -/
theorem integral_held_iff_integer_saturated_witness :
    (nearTargetHeater.gateOpen 10001 = true ∧ nearTargetHeater._enabled = true ∧
      (nearTargetHeater.sampled (7709 / 32)).stepFinite ∧
      (0 : Int) ≤ nearTargetHeater._maxPWM ∧ nearTargetHeater._maxPWM < INT_MAX) ∧
    (-1 < (nearTargetHeater.sampled (7709 / 32)).pidRaw ∧
      (nearTargetHeater.sampled (7709 / 32)).pidRaw < (nearTargetHeater._maxPWM : ℚ) + 1) ∧
    ((nearTargetHeater.run 10001 (7709 / 32)).iError =
        (nearTargetHeater.sampled (7709 / 32)).newIError ∧
      (nearTargetHeater.sampled (7709 / 32)).PWMOUT =
        truncate (nearTargetHeater.sampled (7709 / 32)).pidRaw) ∧
    (saturationEdgeHeater.gateOpen 10001 = true ∧ saturationEdgeHeater._enabled = true ∧
      (saturationEdgeHeater.sampled 233).stepFinite ∧
      (0 : Int) ≤ saturationEdgeHeater._maxPWM ∧ saturationEdgeHeater._maxPWM < INT_MAX) ∧
    ((saturationEdgeHeater.reference 233).raw < 221 ∧
      (saturationEdgeHeater.sampled 233).pidRaw = 221 ∧
      (saturationEdgeHeater._maxPWM : ℚ) + 1 ≤ (saturationEdgeHeater.sampled 233).pidRaw) ∧
    ((saturationEdgeHeater.run 10001 233).iError = saturationEdgeHeater.iError ∧
      (saturationEdgeHeater.sampled 233).PWMOUT ≠
        truncate (saturationEdgeHeater.sampled 233).pidRaw) := by
  have hn := integral_held_iff_integer_saturated nearTargetHeater 10001 (7709 / 32)
    (by decide) (by decide) nearTargetHeater_step.2.2.2.2 (by decide) (by decide)
  have hs := integral_held_iff_integer_saturated saturationEdgeHeater 10001 233
    (by decide) (by decide) saturationEdgeHeater_step.2.2.2.2 (by decide) (by decide)
  have hnraw : (nearTargetHeater.sampled (7709 / 32)).pidRaw = -150733 / 524288 :=
    nearTargetHeater_step.2.2.2.1
  have hsraw : (saturationEdgeHeater.sampled 233).pidRaw = 221 :=
    saturationEdgeHeater_step.2.2.2.1
  have hnm : ((nearTargetHeater._maxPWM : Int) : ℚ) = 220 := by
    norm_num [nearTargetHeater, configuredHeater]
  have hsm : ((saturationEdgeHeater._maxPWM : Int) : ℚ) = 220 := by
    norm_num [saturationEdgeHeater, configuredHeater]
  have hnband : -1 < (nearTargetHeater.sampled (7709 / 32)).pidRaw ∧
      (nearTargetHeater.sampled (7709 / 32)).pidRaw < (nearTargetHeater._maxPWM : ℚ) + 1 := by
    rw [hnraw, hnm]
    norm_num
  have hsout : (saturationEdgeHeater._maxPWM : ℚ) + 1 ≤
      (saturationEdgeHeater.sampled 233).pidRaw := by
    rw [hsraw, hsm]
    norm_num
  have hsref : (saturationEdgeHeater.reference 233).raw < 221 := by
    show 30 * (240 - 233) + fl32 (269 / 10) * (857571 / 2097152) +
      fl32 (83625 / 10000) * ((240 - 233 - 7) / (((10000 : ℕ) : ℚ) / 1000000)) < 221
    rw [fl32_HEAT_KI]
    norm_num
  exact ⟨⟨by decide, by decide, nearTargetHeater_step.2.2.2.2, by decide, by decide⟩,
    hnband, hn.2 hnband,
    ⟨by decide, by decide, saturationEdgeHeater_step.2.2.2.2, by decide, by decide⟩,
    ⟨hsref, hsraw, hsout⟩, hs.1 (Or.inr hsout)⟩

/-- C3: `disable` writes 0 to the heater pin, switches the fan off and clears
`_enabled`; after it, any sequence of `run` calls (at any counter readings, with any
sampled temperatures) and target changes leaves the heater disabled and writes no
pin, so the value on the heater pin stays 0. -/
theorem disable_then_runs_keep_heater_off (h : Heater) (ops : List HeaterOp)
    (hops : ∀ op ∈ ops, op.isRunOrTarget = true) :
    h.disable.pinLog = h.pinLog ++
      [PinWrite.analogWrite h._heaterPin 0, PinWrite.digitalWrite h._fanPin false] ∧
    h.disable._enabled = false ∧
    (h.disable.steps ops)._enabled = false ∧
    (h.disable.steps ops).pinLog = h.disable.pinLog ∧
    pinState (h.disable.steps ops).pinLog h._heaterPin = some 0 := by
  have hs := Heater.steps_of_disabled h.disable ops rfl hops
  refine ⟨rfl, rfl, hs.1, hs.2, ?_⟩
  rw [hs.2]
  exact Heater.pinState_disable h

/-- Witness of C3: the configured heater, disabled and then polled three times with a
target change in between. -/
theorem disable_then_runs_keep_heater_off_witness :
    (∀ op ∈ [HeaterOp.run 10001 200, HeaterOp.setTargetTemp 250, HeaterOp.run 20002 180,
        HeaterOp.run 20003 180], op.isRunOrTarget = true) ∧
    (configuredHeater.disable.steps [HeaterOp.run 10001 200, HeaterOp.setTargetTemp 250,
      HeaterOp.run 20002 180, HeaterOp.run 20003 180])._enabled = false ∧
    pinState (configuredHeater.disable.steps [HeaterOp.run 10001 200,
      HeaterOp.setTargetTemp 250, HeaterOp.run 20002 180,
      HeaterOp.run 20003 180]).pinLog configuredHeater._heaterPin = some 0 :=
  have hops : ∀ op ∈ [HeaterOp.run 10001 200, HeaterOp.setTargetTemp 250,
      HeaterOp.run 20002 180, HeaterOp.run 20003 180], op.isRunOrTarget = true := by
    intro op hop
    simp only [List.mem_cons, List.mem_singleton, List.not_mem_nil, or_false] at hop
    rcases hop with rfl | rfl | rfl | rfl <;> rfl
  ⟨hops,
    (disable_then_runs_keep_heater_off configuredHeater _ hops).2.2.1,
    (disable_then_runs_keep_heater_off configuredHeater _ hops).2.2.2.2⟩

/-- C4: if `iError` lies in `[0, 10]`, it still does after `enable`, `disable`, a
target change or `run` (whatever the gains, the loop period, the counter reading and
the sampled temperature). -/
theorem integral_stays_bounded (h : Heater) (op : HeaterOp)
    (hlo : 0 ≤ h.iError) (hhi : h.iError ≤ 10) :
    0 ≤ (h.step op).iError ∧ (h.step op).iError ≤ 10 := by
  cases op with
  | enable => exact ⟨hlo, hhi⟩
  | disable => exact ⟨hlo, hhi⟩
  | setTargetTemp t => exact ⟨hlo, hhi⟩
  | run now temp =>
    show 0 ≤ (h.run now temp).iError ∧ (h.run now temp).iError ≤ 10
    cases hg : h.gateOpen now with
    | false =>
      rw [Heater.run_of_closed h now temp hg]
      exact ⟨hlo, hhi⟩
    | true =>
      cases hen : h._enabled with
      | false =>
        rw [Heater.run_of_disabled h now temp hg hen]
        exact ⟨hlo, hhi⟩
      | true =>
        rw [Heater.run_of_enabled h now temp hg hen]
        show 0 ≤ (if (h.sampled temp).PWMOUT = (h.sampled temp).PIDOUT
            then (h.sampled temp).newIError else h.iError) ∧
          (if (h.sampled temp).PWMOUT = (h.sampled temp).PIDOUT
            then (h.sampled temp).newIError else h.iError) ≤ 10
        split_ifs
        · exact Heater.newIError_range _
        · exact ⟨hlo, hhi⟩

/-- Witness of C4: the near-target heater, sampled at 240.90625 degrees, moves its
integral from 1 to about 0.9909. -/
theorem integral_stays_bounded_witness :
    (0 : ℚ) ≤ nearTargetHeater.iError ∧ nearTargetHeater.iError ≤ 10 ∧
    0 ≤ (nearTargetHeater.step (HeaterOp.run 10001 (7709 / 32))).iError ∧
    (nearTargetHeater.step (HeaterOp.run 10001 (7709 / 32))).iError ≤ 10 :=
  have hlo : (0 : ℚ) ≤ nearTargetHeater.iError := by
    norm_num [nearTargetHeater]
  have hhi : nearTargetHeater.iError ≤ 10 := by
    norm_num [nearTargetHeater]
  ⟨hlo, hhi,
    integral_stays_bounded nearTargetHeater (HeaterOp.run 10001 (7709 / 32)) hlo hhi⟩

/-- C5 (as stated, refuted): (i) the configured heater is 3.375 degrees below target
with unchanged error and zero integral, so the raw output is 30 * 3.375 = 101.25,
inside `[0, 220]`; the reference actuation `clamp(raw, 0, 220)` is 101.25 but the step
asserts the duty 101.  (ii) In the scenario of the claim (gains 30, 26.9, 8.3625,
period 10000 us, target 240, sample 200, zero memory) the reference control law has
the trial integral 0.4, the derivative 4000 and the raw output 34650, where the code,
working in `float`, computes 13421773/33554432, 16384001/4096 = 4000.000244140625 and
8870401/256 = 34650.00390625. -/
theorem actuation_differs_from_reference :
    approachingHeater.gateOpen 10001 = true ∧ approachingHeater._enabled = true ∧
    (approachingHeater.reference (1893 / 8)).raw = 405 / 4 ∧
    (approachingHeater.reference (1893 / 8)).actuation = 405 / 4 ∧
    (approachingHeater.run 10001 (1893 / 8)).pinLog = [PinWrite.analogWrite 22 101] ∧
    ((101 : Int) : ℚ) ≠ (approachingHeater.reference (1893 / 8)).actuation ∧
    (referenceControlLaw 30 (269 / 10) (83625 / 10000) 220 10000 240 200 0 0).trialIntegral =
      2 / 5 ∧
    (referenceControlLaw 30 (269 / 10) (83625 / 10000) 220 10000 240 200 0 0).derivative =
      4000 ∧
    (referenceControlLaw 30 (269 / 10) (83625 / 10000) 220 10000 240 200 0 0).raw = 34650 ∧
    (configuredHeater.reference 200).derivative = 4000 ∧
    (configuredHeater.sampled 200).newIError = 13421773 / 33554432 ∧
    (configuredHeater.sampled 200).dError = 16384001 / 4096 ∧
    (configuredHeater.sampled 200).pidRaw = 8870401 / 256 := by
  have hraw : (approachingHeater.sampled (1893 / 8)).pidRaw = 405 / 4 :=
    approachingHeater_step.2.2.2.1
  have href : (approachingHeater.reference (1893 / 8)).raw = 405 / 4 := by
    norm_num [approachingHeater, configuredHeater, Heater.reference, referenceControlLaw]
  have hact : (approachingHeater.reference (1893 / 8)).actuation = 405 / 4 := by
    have e : (approachingHeater.reference (1893 / 8)).actuation =
        clamp (approachingHeater.reference (1893 / 8)).raw 0 220 := by
      norm_num [approachingHeater, configuredHeater, Heater.reference, referenceControlLaw]
    rw [e, href]
    norm_num [clamp]
  have hm : (approachingHeater.sampled (1893 / 8))._maxPWM = 220 := by decide
  have hband := Heater.PWMOUT_of_band (approachingHeater.sampled (1893 / 8))
    (by rw [hm]; decide) (by rw [hm]; decide) (by rw [hraw]; norm_num)
    (by rw [hm, hraw]; norm_num)
  have ht : truncate (405 / 4) = 101 := by
    rw [truncate_of_nonneg (by norm_num), Int.floor_eq_iff]
    norm_num
  have hW : (approachingHeater.sampled (1893 / 8)).PWMOUT = 101 := by
    rw [hband.2, hraw, ht]
  refine ⟨by decide, by decide, href, hact, ?_, ?_, ?_, ?_, ?_, ?_,
    configuredHeater_step.2.1, configuredHeater_step.2.2.1, configuredHeater_step.2.2.2.1⟩
  · rw [Heater.run_of_enabled _ _ _ (by decide) (by decide)]
    simp only [Heater.control, hW]
    rfl
  · rw [hact]
    norm_num
  · norm_num [referenceControlLaw, clamp]
  · norm_num [referenceControlLaw]
  · norm_num [referenceControlLaw]
  · norm_num [configuredHeater, Heater.reference, referenceControlLaw]

/-- C5 (amended): an executed control step of an enabled heater with
`0 <= _maxPWM <= INT_MAX`, a non-zero loop period and `float` operations that all yield
finite values follows the reference control law evaluated in single precision
(`referenceControlLawF32`: every operation rounded to `float`, the time step applied
as `error * loopPeriod / 1e6` and `(error - lastError) / loopPeriod * 1e6`) in `error`,
trial integral, `derivative`, `raw` (whose integral term uses the integral committed
before the step) and `lastError`, while the duty it asserts is the actuation
`clamp(raw, 0, maxDutyCycle)` truncated toward zero to an integer. -/
theorem control_step_follows_reference (h : Heater) (now : Nat) (temp : ℚ)
    (hg : h.gateOpen now = true) (hen : h._enabled = true)
    (_hfin : (h.sampled temp).stepFinite) (hmax : 0 ≤ h._maxPWM) (hfit : h._maxPWM ≤ INT_MAX) :
    (h.sampled temp).error = (h.referenceF32 temp).error ∧
    (h.sampled temp).newIError = (h.referenceF32 temp).trialIntegral ∧
    (h.sampled temp).dError = (h.referenceF32 temp).derivative ∧
    (h.sampled temp).pidRaw = (h.referenceF32 temp).raw ∧
    (h.sampled temp).PWMOUT = truncate (h.referenceF32 temp).actuation ∧
    (h.run now temp).pinLog = h.pinLog ++
      [PinWrite.analogWrite h._heaterPin (truncate (h.referenceF32 temp).actuation)] ∧
    (h.run now temp).lastError = (h.referenceF32 temp).error := by
  have herr : (h.sampled temp).error = (h.referenceF32 temp).error := rfl
  have hd : (h.sampled temp).dError = (h.referenceF32 temp).derivative := rfl
  have hraw : (h.sampled temp).pidRaw = (h.referenceF32 temp).raw := rfl
  have hW : (h.sampled temp).PWMOUT = truncate (h.referenceF32 temp).actuation := by
    show min (max (floatToInt (h.sampled temp).pidRaw) 0) h._maxPWM =
      truncate (clamp (h.referenceF32 temp).raw 0 h._maxPWM)
    rw [hraw]
    exact clamp_floatToInt _ _ hmax hfit
  refine ⟨herr, ?_, hd, hraw, hW, ?_, ?_⟩
  · show max (min (fl32 (h.iError +
        fl32 (fl32 (fl32 (h.targetTemp - temp) * fl32 h._loopInterval) / 1000000))) 10) 0 =
      max 0 (min (fl32 (h.iError +
        fl32 (fl32 (fl32 (h.targetTemp - temp) * fl32 h._loopInterval) / 1000000))) 10)
    rw [max_comm]
  · rw [Heater.run_of_enabled h now temp hg hen, ← hW]
    rfl
  · rw [Heater.run_of_enabled h now temp hg hen]
    rfl

/-- Witness of C5 (amended), the scenario of the specification: gains 30, 26.9 and
8.3625 as `float`, period 10000 us, target 240, sample 200, zero prior error and
integral give error 40, trial integral 13421773/33554432 (the `float` next to 0.4),
derivative 16384001/4096 (4000.000244140625), raw output 8870401/256
(34650.00390625), asserted duty 220, an unchanged integral 0 and `lastError` 40. -/
theorem control_step_follows_reference_witness :
    (configuredHeater.gateOpen 10001 = true ∧ configuredHeater._enabled = true ∧
      (configuredHeater.sampled 200).stepFinite ∧ (0 : Int) ≤ configuredHeater._maxPWM ∧
      configuredHeater._maxPWM ≤ INT_MAX) ∧
    ((configuredHeater.sampled 200).error = (configuredHeater.referenceF32 200).error ∧
      (configuredHeater.sampled 200).newIError =
        (configuredHeater.referenceF32 200).trialIntegral ∧
      (configuredHeater.sampled 200).dError =
        (configuredHeater.referenceF32 200).derivative ∧
      (configuredHeater.sampled 200).pidRaw = (configuredHeater.referenceF32 200).raw ∧
      (configuredHeater.sampled 200).PWMOUT =
        truncate (configuredHeater.referenceF32 200).actuation ∧
      (configuredHeater.run 10001 200).pinLog = configuredHeater.pinLog ++
        [PinWrite.analogWrite configuredHeater._heaterPin
          (truncate (configuredHeater.referenceF32 200).actuation)] ∧
      (configuredHeater.run 10001 200).lastError =
        (configuredHeater.referenceF32 200).error) ∧
    ((configuredHeater.referenceF32 200).error = 40 ∧
      (configuredHeater.referenceF32 200).trialIntegral = 13421773 / 33554432 ∧
      (configuredHeater.referenceF32 200).derivative = 16384001 / 4096 ∧
      (configuredHeater.referenceF32 200).raw = 8870401 / 256 ∧
      (configuredHeater.referenceF32 200).actuation = 220 ∧
      truncate (configuredHeater.referenceF32 200).actuation = 220 ∧
      (configuredHeater.run 10001 200).pinLog = [PinWrite.analogWrite 22 220] ∧
      (configuredHeater.run 10001 200).iError = 0 ∧
      (configuredHeater.run 10001 200).lastError = 40) := by
  have hthm := control_step_follows_reference configuredHeater 10001 200
    (by decide) (by decide) configuredHeater_step.2.2.2.2 (by decide) (by decide)
  have hraw : (configuredHeater.referenceF32 200).raw = 8870401 / 256 :=
    hthm.2.2.2.1.symm.trans configuredHeater_step.2.2.2.1
  have hact : (configuredHeater.referenceF32 200).actuation = 220 := by
    show clamp (configuredHeater.referenceF32 200).raw 0 ((220 : Int) : ℚ) = 220
    rw [hraw]
    norm_num [clamp]
  have htr : truncate (configuredHeater.referenceF32 200).actuation = 220 := by
    rw [hact]
    exact truncate_intCast 220
  have hPWM : (configuredHeater.sampled 200).PWMOUT = 220 := hthm.2.2.2.2.1.trans htr
  have hPID : (configuredHeater.sampled 200).PIDOUT = 34650 := by
    have ht : truncate (8870401 / 256) = 34650 := by
      rw [truncate_of_nonneg (by norm_num), Int.floor_eq_iff]
      norm_num
    unfold Heater.PIDOUT floatToInt
    rw [configuredHeater_step.2.2.2.1, ht]
    decide
  refine ⟨⟨by decide, by decide, configuredHeater_step.2.2.2.2, by decide, by decide⟩, hthm,
    hthm.1.symm.trans configuredHeater_step.1,
    hthm.2.1.symm.trans configuredHeater_step.2.1,
    hthm.2.2.1.symm.trans configuredHeater_step.2.2.1, hraw, hact, htr, ?_, ?_, ?_⟩
  · rw [hthm.2.2.2.2.2.1, htr]
    rfl
  · rw [Heater.run_of_enabled _ _ _ (by decide) (by decide)]
    show (if (configuredHeater.sampled 200).PWMOUT = (configuredHeater.sampled 200).PIDOUT
      then (configuredHeater.sampled 200).newIError else configuredHeater.iError) = 0
    rw [hPWM, hPID, if_neg (by decide)]
    rfl
  · rw [hthm.2.2.2.2.2.2]
    exact hthm.1.symm.trans configuredHeater_step.1

/-- C6 (as stated, refuted): the configured heater (period 10000 us) is first polled
30001 us after construction and again 1 us later; both calls execute the control
law. -/
theorem executed_steps_one_microsecond_apart :
    List.Pairwise (· ≤ ·) (configuredHeater.lastPIDTime ::
      runTimes [HeaterOp.run 30001 200, HeaterOp.run 30002 200]) ∧
    configuredHeater.execTimes [HeaterOp.run 30001 200, HeaterOp.run 30002 200] =
      [30001, 30002] ∧
    30002 - 30001 < configuredHeater._loopInterval := by
  refine ⟨by decide, by decide, by decide⟩

/-- C6 (amended): for calls whose `run` readings are non-decreasing from the counter
reference of the gate (residual 0 at construction) and do not wrap, the executed
control step of index `k` (counting from 0) happens more than `k + 1` loop periods
after construction: the control law runs at most once per loop period on average. -/
theorem executed_step_after_its_periods (h : Heater) (ops : List HeaterOp)
    (hs : List.Pairwise (· ≤ ·) (h.lastPIDTime :: runTimes ops))
    (hlt : ∀ t ∈ runTimes ops, t < 4294967296)
    (k t : Nat) (hk : (h.execTimes ops)[k]? = some t) :
    h.lastPIDTime + (k + 1) * h._loopInterval < t :=
  (Heater.gate_bookkeeping ops h h.lastPIDTime le_rfl hs hlt).2.2.1 k t hk

/-- Witness of C6 (amended): the second executed step of the late-polled heater, at
30002 us, is more than two periods after construction. -/
theorem executed_step_after_its_periods_witness :
    List.Pairwise (· ≤ ·) (configuredHeater.lastPIDTime ::
      runTimes [HeaterOp.run 30001 200, HeaterOp.run 30002 200]) ∧
    (∀ t ∈ runTimes [HeaterOp.run 30001 200, HeaterOp.run 30002 200], t < 4294967296) ∧
    (configuredHeater.execTimes [HeaterOp.run 30001 200, HeaterOp.run 30002 200])[1]? =
      some 30002 ∧
    configuredHeater.lastPIDTime + (1 + 1) * configuredHeater._loopInterval < 30002 :=
  ⟨by decide, by decide, by decide,
    executed_step_after_its_periods configuredHeater
      [HeaterOp.run 30001 200, HeaterOp.run 30002 200] (by decide) (by decide) 1 30002
      (by decide)⟩

/-- C7 (as stated, refuted): a heater polled at the very counter reading of its
construction has executed no step and no time has elapsed, so the strict bound
`N * loopPeriod < elapsedTime` reads `0 < 0`. -/
theorem no_strict_bound_at_zero_elapsed :
    List.Pairwise (· ≤ ·) (configuredHeater.lastPIDTime ::
      (runTimes [HeaterOp.run 0 200] ++ [0])) ∧
    (configuredHeater.execTimes [HeaterOp.run 0 200]).length = 0 ∧
    (configuredHeater.steps [HeaterOp.run 0 200]).elapsed 0 = 0 ∧
    ¬ ((configuredHeater.execTimes [HeaterOp.run 0 200]).length *
        configuredHeater._loopInterval < 0 - configuredHeater.lastPIDTime) := by
  refine ⟨by decide, by decide, by decide, by decide⟩

/-- C7 (amended): a `run` executes the control law iff the residual of the gate
exceeds the loop period, and then lowers the residual by exactly the loop period.
From residual 0 at construction, over calls whose `run` readings are non-decreasing
and do not wrap, the residual at any later reading `tEnd` plus `N` loop periods equals
the elapsed time, `N` being the number of executed steps; hence
`N * loopPeriod <= elapsedTime`, strictly as soon as the elapsed time is positive. -/
theorem gate_residual_accounting (h : Heater) (ops : List HeaterOp) (tEnd : Nat)
    (hs : List.Pairwise (· ≤ ·) (h.lastPIDTime :: (runTimes ops ++ [tEnd])))
    (hEnd : tEnd < 4294967296) :
    (∀ (g : Heater) (now : Nat) (temp : ℚ),
      (g.gateOpen now = true ↔ g._loopInterval < g.elapsed now) ∧
      (g.gateOpen now = true →
        (g.run now temp).elapsed now = g.elapsed now - g._loopInterval) ∧
      (g.gateOpen now = false → g.run now temp = g)) ∧
    h.elapsed h.lastPIDTime = 0 ∧
    (h.steps ops).elapsed tEnd + (h.execTimes ops).length * h._loopInterval =
      tEnd - h.lastPIDTime ∧
    (h.execTimes ops).length * h._loopInterval ≤ tEnd - h.lastPIDTime ∧
    (0 < tEnd - h.lastPIDTime →
      (h.execTimes ops).length * h._loopInterval < tEnd - h.lastPIDTime) := by
  have hc := List.pairwise_cons.mp hs
  have ha := List.pairwise_append.mp hc.2
  have h0End : h.lastPIDTime ≤ tEnd := hc.1 tEnd (by simp)
  have hle : ∀ t ∈ runTimes ops, t ≤ tEnd := fun t ht => ha.2.2 t ht tEnd (by simp)
  have hs2 : List.Pairwise (· ≤ ·) (h.lastPIDTime :: runTimes ops) :=
    List.pairwise_cons.mpr ⟨fun t ht => hc.1 t (by simp [ht]), ha.1⟩
  have hlt : ∀ t ∈ runTimes ops, t < 4294967296 := fun t ht => lt_of_le_of_lt (hle t ht) hEnd
  have hB := Heater.gate_bookkeeping ops h h.lastPIDTime le_rfl hs2 hlt
  -- the counter reference after the calls is strictly before `tEnd` once time has passed
  have hlast : (h.steps ops).lastPIDTime ≤ tEnd ∧
      (h.lastPIDTime < tEnd → (h.steps ops).lastPIDTime < tEnd) := by
    rw [hB.1]
    rcases Nat.eq_zero_or_pos (h.execTimes ops).length with hz | hpos
    · rw [hz]
      omega
    · obtain ⟨n, hn⟩ := Nat.exists_eq_succ_of_ne_zero (Nat.pos_iff_ne_zero.mp hpos)
      have hidx : n < (h.execTimes ops).length := by omega
      have hget : (h.execTimes ops)[n]? = some ((h.execTimes ops)[n]) :=
        List.getElem?_eq_getElem hidx
      have hk := hB.2.2.1 n _ hget
      have hmem : (h.execTimes ops)[n] ∈ runTimes ops :=
        hB.2.2.2 _ (List.getElem_mem hidx)
      have := hle _ hmem
      rw [hn]
      have e : (n + 1) * h._loopInterval = (Nat.succ n) * h._loopInterval := rfl
      constructor
      · omega
      · intro _
        omega
  have hres : (h.steps ops).elapsed tEnd = tEnd - (h.steps ops).lastPIDTime :=
    Heater.elapsed_of_le _ _ hlast.1 hEnd
  refine ⟨?_, ?_, ?_, ?_, ?_⟩
  · intro g now temp
    refine ⟨Heater.gateOpen_iff g now, Heater.run_elapsed_of_open g now temp,
      Heater.run_of_closed g now temp⟩
  · rw [Heater.elapsed_of_le h _ le_rfl (lt_of_le_of_lt h0End hEnd)]
    omega
  · rw [hres]
    have := hlast.1
    rw [hB.1] at this ⊢
    omega
  · have := hlast.1
    rw [hB.1] at this
    omega
  · intro hpos
    have := hlast.2 (by omega)
    rw [hB.1] at this
    omega

/-- Witness of C7 (amended): the late-polled heater has executed two steps by
30002 us, leaving the residual 10002. -/
theorem gate_residual_accounting_witness :
    List.Pairwise (· ≤ ·) (configuredHeater.lastPIDTime ::
      (runTimes [HeaterOp.run 30001 200, HeaterOp.run 30002 200] ++ [30002])) ∧
    (configuredHeater.steps [HeaterOp.run 30001 200, HeaterOp.run 30002 200]).elapsed 30002
      = 10002 ∧
    (configuredHeater.steps [HeaterOp.run 30001 200, HeaterOp.run 30002 200]).elapsed 30002 +
      (configuredHeater.execTimes [HeaterOp.run 30001 200, HeaterOp.run 30002 200]).length *
        configuredHeater._loopInterval = 30002 - configuredHeater.lastPIDTime ∧
    (0 < 30002 - configuredHeater.lastPIDTime →
      (configuredHeater.execTimes [HeaterOp.run 30001 200, HeaterOp.run 30002 200]).length *
        configuredHeater._loopInterval < 30002 - configuredHeater.lastPIDTime) :=
  ⟨by decide, by decide,
    (gate_residual_accounting configuredHeater
      [HeaterOp.run 30001 200, HeaterOp.run 30002 200] 30002 (by decide) (by decide)).2.2.1,
    (gate_residual_accounting configuredHeater
      [HeaterOp.run 30001 200, HeaterOp.run 30002 200] 30002 (by decide) (by decide)).2.2.2.2⟩

/-- C8 (as stated, refuted), at the configured calibration (the `float` nearest to
0.00345): (i) for 10 mm/s the code stores 345 us where `trunc(mmPerStep / s * 1e6)`
is 344, the exact period being 344.999996...; (ii) for `2 ^ (-19)` mm/s the exact
period is 1808793579.1..., the code computes the `float` 1808793600 and arms the
half-period 904396800, more than 10 us from the exact half-period; (iii) for
`2 ^ (-20)` mm/s the period 3617587200 does not fit the 32-bit `usPerStep`: the
conversion saturates at 2147483647 and the armed half-period is 1073741823. -/
theorem setSpeed_rounds_and_saturates :
    0 < configuredStepper._MM_PER_STEP ∧
    (configuredStepper.setSpeed 10 true).usPerStep = 345 ∧
    truncate (configuredStepper._MM_PER_STEP / 10 * 1000000) = 344 ∧
    (configuredStepper.setSpeed (1 / 524288) true).usPerStep = 1808793600 ∧
    truncate (configuredStepper._MM_PER_STEP / (1 / 524288) * 1000000) = 1808793579 ∧
    (configuredStepper.setSpeed (1 / 524288) true).stepTimer = some 904396800 ∧
    (10 : ℚ) ≤ |configuredStepper._MM_PER_STEP / (1 / 524288) * 1000000 / 2 -
      ((904396800 : Int) : ℚ)| ∧
    (configuredStepper.setSpeed (1 / 1048576) true).usPerStep = 2147483647 ∧
    (configuredStepper.setSpeed (1 / 1048576) true).stepTimer = some 1073741823 ∧
    (1 : ℚ) ≤ |configuredStepper._MM_PER_STEP / (1 / 1048576) * 1000000 / 2 -
      ((1073741823 : Int) : ℚ)| := by
  have hmm : configuredStepper._MM_PER_STEP = 14817637 / 4294967296 := fl32_MM_PER_STEP
  have hus10 : (configuredStepper.setSpeed 10 true).usPerStep = 345 := by
    show floatToInt (fl32 (fl32 (fl32 (345 / 100000) / 10) * 1000000)) = 345
    rw [period_at_speed_10, show (345 : ℚ) = ((345 : Int) : ℚ) by norm_num]
    unfold floatToInt
    rw [truncate_intCast]
    decide
  have hus19 : floatToInt (fl32 (fl32 (fl32 (345 / 100000) / (1 / 524288)) * 1000000)) =
      1808793600 := by
    rw [period_at_speed_2_pow_neg_19,
      show (1808793600 : ℚ) = ((1808793600 : Int) : ℚ) by norm_num]
    unfold floatToInt
    rw [truncate_intCast]
    decide
  have hus20 : floatToInt (fl32 (fl32 (fl32 (345 / 100000) / (1 / 1048576)) * 1000000)) =
      2147483647 := by
    rw [period_at_speed_2_pow_neg_20,
      show (3617587200 : ℚ) = ((3617587200 : Int) : ℚ) by norm_num]
    unfold floatToInt
    rw [truncate_intCast]
    decide
  refine ⟨by rw [hmm]; norm_num, hus10, ?_, hus19, ?_, ?_, ?_, hus20, ?_, ?_⟩
  · rw [hmm, truncate_of_nonneg (by norm_num), Int.floor_eq_iff]
    norm_num
  · rw [hmm, truncate_of_nonneg (by norm_num), Int.floor_eq_iff]
    norm_num
  · show some (Int.tdiv
      (floatToInt (fl32 (fl32 (fl32 (345 / 100000) / (1 / 524288)) * 1000000))) 2) =
        some 904396800
    rw [hus19]
    decide
  · rw [hmm]
    norm_num [abs_le, le_abs]
  · show some (Int.tdiv
      (floatToInt (fl32 (fl32 (fl32 (345 / 100000) / (1 / 1048576)) * 1000000))) 2) =
        some 1073741823
    rw [hus20]
    decide
  · rw [hmm]
    norm_num [abs_le, le_abs]

/-- C8 (amended): for a speed `s > 0` and a calibration `mmPerStep > 0` whose exact
period `x = mmPerStep / s * 1e6` is at least 1 us and whose period as the code
computes it, the `float` `F = fl(fl(mmPerStep / s) * 1e6)`, is below `2 ^ 31` (it fits
the 32-bit `usPerStep`), `setSpeed(s)` with `run = true` stores `usPerStep = trunc(F)`,
where `F` is within `x / 2 ^ 22` of `x`, and arms the timer with the half-period
`floor(usPerStep / 2)`, which differs from the exact `x / 2` by less than
`1 + x / 2 ^ 23` microseconds. -/
theorem setSpeed_half_period (s : Stepper) (speed : ℚ) (hs : 0 < speed)
    (hmm : 0 < s._MM_PER_STEP) (hlo : 1 ≤ s._MM_PER_STEP / speed * 1000000)
    (hfit : fl32 (fl32 (s._MM_PER_STEP / speed) * 1000000) < 2147483648) :
    (s.setSpeed speed true).usPerStep =
      truncate (fl32 (fl32 (s._MM_PER_STEP / speed) * 1000000)) ∧
    |fl32 (fl32 (s._MM_PER_STEP / speed) * 1000000) - s._MM_PER_STEP / speed * 1000000| ≤
      s._MM_PER_STEP / speed * 1000000 / 4194304 ∧
    (s.setSpeed speed true).stepTimer =
      some ⌊((s.setSpeed speed true).usPerStep : ℚ) / 2⌋ ∧
    |s._MM_PER_STEP / speed * 1000000 / 2 -
      ((⌊((s.setSpeed speed true).usPerStep : ℚ) / 2⌋ : Int) : ℚ)| <
      1 + s._MM_PER_STEP / speed * 1000000 / 8388608 := by
  have hq0 : 0 < s._MM_PER_STEP / speed := div_pos hmm hs
  have hq1 : (1 : ℚ) / 1000000 ≤ s._MM_PER_STEP / speed := by linarith
  have hq := fl32_bounds_of_pos _ hq1
  have hF1 : (1 : ℚ) / 1000000 ≤ fl32 (s._MM_PER_STEP / speed) * 1000000 := by
    nlinarith [hq.1]
  have hF := fl32_bounds_of_pos _ hF1
  have hus0 : (s.setSpeed speed true).usPerStep =
      floatToInt (fl32 (fl32 (s._MM_PER_STEP / speed) * 1000000)) := rfl
  have htimer : (s.setSpeed speed true).stepTimer =
      some (Int.tdiv (floatToInt (fl32 (fl32 (s._MM_PER_STEP / speed) * 1000000))) 2) := rfl
  rw [htimer, hus0]
  generalize s._MM_PER_STEP / speed = q0 at *
  generalize fl32 q0 = q at *
  generalize fl32 (q * 1000000) = F at *
  have hFx : |F - q0 * 1000000| ≤ q0 * 1000000 / 4194304 := by
    rw [abs_le]
    constructor <;> nlinarith [hq.1, hq.2, hF.1, hF.2]
  have hF0 : 0 ≤ F := by nlinarith [hq.1, hF.1]
  have htr : truncate F = ⌊F⌋ := truncate_of_nonneg hF0
  have hfl0 : 0 ≤ ⌊F⌋ := Int.floor_nonneg.mpr hF0
  have hflt : ⌊F⌋ < 2147483648 := Int.floor_lt.mpr (by push_cast; exact hfit)
  have hconv : floatToInt F = ⌊F⌋ := by
    rw [floatToInt_of_fits, htr]
    · rw [htr]
      unfold INT_MIN
      omega
    · rw [htr]
      unfold INT_MAX
      omega
  have hhalf : Int.tdiv ⌊F⌋ 2 = ⌊((⌊F⌋ : Int) : ℚ) / 2⌋ := by
    rw [floor_half]
    exact Int.tdiv_eq_ediv hfl0 (by norm_num)
  rw [hconv, htr, hhalf]
  refine ⟨rfl, hFx, rfl, ?_⟩
  rw [floor_half]
  have h1 := Int.floor_le F
  have h2 := Int.lt_floor_add_one F
  have h3 : 2 * (⌊F⌋ / 2) ≤ ⌊F⌋ := by omega
  have h4 : ⌊F⌋ ≤ 2 * (⌊F⌋ / 2) + 1 := by omega
  have h3q : (2 : ℚ) * ((⌊F⌋ / 2 : Int) : ℚ) ≤ ((⌊F⌋ : Int) : ℚ) := by exact_mod_cast h3
  have h4q : ((⌊F⌋ : Int) : ℚ) ≤ 2 * ((⌊F⌋ / 2 : Int) : ℚ) + 1 := by exact_mod_cast h4
  rw [abs_le] at hFx
  rw [abs_lt]
  constructor <;> linarith [hFx.1, hFx.2]

/-- Witness of C8 (amended), the scenario of the specification: the `float` nearest to
0.00345 mm per step at 10 mm/s gives 345 us per step and an armed half-period of
172 us. -/
theorem setSpeed_half_period_witness :
    ((0 : ℚ) < 10 ∧ 0 < configuredStepper._MM_PER_STEP ∧
      1 ≤ configuredStepper._MM_PER_STEP / 10 * 1000000 ∧
      fl32 (fl32 (configuredStepper._MM_PER_STEP / 10) * 1000000) < 2147483648) ∧
    ((configuredStepper.setSpeed 10 true).usPerStep =
        truncate (fl32 (fl32 (configuredStepper._MM_PER_STEP / 10) * 1000000)) ∧
      |fl32 (fl32 (configuredStepper._MM_PER_STEP / 10) * 1000000) -
          configuredStepper._MM_PER_STEP / 10 * 1000000| ≤
        configuredStepper._MM_PER_STEP / 10 * 1000000 / 4194304 ∧
      (configuredStepper.setSpeed 10 true).stepTimer =
        some ⌊((configuredStepper.setSpeed 10 true).usPerStep : ℚ) / 2⌋ ∧
      |configuredStepper._MM_PER_STEP / 10 * 1000000 / 2 -
          ((⌊((configuredStepper.setSpeed 10 true).usPerStep : ℚ) / 2⌋ : Int) : ℚ)| <
        1 + configuredStepper._MM_PER_STEP / 10 * 1000000 / 8388608) ∧
    fl32 (fl32 (configuredStepper._MM_PER_STEP / 10) * 1000000) = 345 ∧
    (configuredStepper.setSpeed 10 true).usPerStep = 345 ∧
    (configuredStepper.setSpeed 10 true).stepTimer = some 172 := by
  have hmm : configuredStepper._MM_PER_STEP = 14817637 / 4294967296 := fl32_MM_PER_STEP
  have hF : fl32 (fl32 (configuredStepper._MM_PER_STEP / 10) * 1000000) = 345 :=
    period_at_speed_10
  have h1 : (0 : ℚ) < configuredStepper._MM_PER_STEP := by
    rw [hmm]
    norm_num
  have h2 : 1 ≤ configuredStepper._MM_PER_STEP / 10 * 1000000 := by
    rw [hmm]
    norm_num
  have h3 : fl32 (fl32 (configuredStepper._MM_PER_STEP / 10) * 1000000) < 2147483648 := by
    rw [hF]
    norm_num
  have hthm := setSpeed_half_period configuredStepper 10 (by norm_num) h1 h2 h3
  have hus : (configuredStepper.setSpeed 10 true).usPerStep = 345 := by
    rw [hthm.1, hF, show (345 : ℚ) = ((345 : Int) : ℚ) by norm_num, truncate_intCast]
  refine ⟨⟨by norm_num, h1, h2, h3⟩, hthm, hF, hus, ?_⟩
  rw [hthm.2.2.1, hus, floor_half]
  decide

/-- C9: for the configured calibration (pull-up 4700, full scale 4096, positive
coefficients) and every sample `analogVal` with `1 < analogVal < 4096 - 1`, the
divisor of `updateTemp` is non-zero, the resistance passed to the logarithm is
strictly positive, and the denominator `A + B * ln(R) + C * ln(R)^3` is non-zero, so
the estimated temperature is finite. -/
theorem estimate_is_finite (h : Heater) (analogVal : Int)
    (hR : h._thermPullupR = 4700) (hM : h._ADCMax = 4096)
    (hA : 0 < h._SH_A) (hB : 0 < h._SH_B) (hC : 0 < h._SH_C)
    (h1 : 1 < analogVal) (h2 : analogVal < 4096 - 1) :
    h.thermDivisor analogVal ≠ 0 ∧
    ∃ R : Nat, h.thermResistance analogVal = some R ∧ 0 < R ∧
      Heater.steinhartDenom (h._SH_A : ℝ) (h._SH_B : ℝ) (h._SH_C : ℝ)
        (Real.log (R : ℝ)) ≠ 0 := by
  have hmem := Heater.thermResistance_of_mem h analogVal (by omega)
    (by rw [hM]; push_cast; omega) (by rw [hM]; norm_num) (by rw [hR, hM]; norm_num)
  rw [hR, hM] at hmem
  refine ⟨by rw [hmem.1]; exact (Nat.pos_iff_ne_zero.mp hmem.2.1), _, hmem.2.2, ?_, ?_⟩
  · exact Nat.div_pos (by omega) hmem.2.1
  · have hpos : 0 < 4700 * analogVal.toNat / (4096 - analogVal.toNat) :=
      Nat.div_pos (by omega) hmem.2.1
    have hone : (1 : ℝ) ≤ ((4700 * analogVal.toNat / (4096 - analogVal.toNat) : Nat) : ℝ) := by
      exact_mod_cast hpos
    have hl := Real.log_nonneg hone
    have hAr : (0 : ℝ) < (h._SH_A : ℝ) := by exact_mod_cast hA
    have hBr : (0 : ℝ) < (h._SH_B : ℝ) := by exact_mod_cast hB
    have hCr : (0 : ℝ) < (h._SH_C : ℝ) := by exact_mod_cast hC
    have t1 := mul_nonneg hBr.le hl
    have t2 := mul_nonneg hCr.le (pow_nonneg hl 3)
    unfold Heater.steinhartDenom
    exact ne_of_gt (by linarith)

/-- Witness of C9: the configured heater at mid-scale, sample 2048, where the
resistance equals the pull-up. -/
theorem estimate_is_finite_witness :
    (configuredHeater._thermPullupR = 4700 ∧ configuredHeater._ADCMax = 4096 ∧
      0 < configuredHeater._SH_A ∧ 0 < configuredHeater._SH_B ∧
      0 < configuredHeater._SH_C ∧ (1 : Int) < 2048 ∧ (2048 : Int) < 4096 - 1) ∧
    configuredHeater.thermResistance 2048 = some 4700 ∧
    (configuredHeater.thermDivisor 2048 ≠ 0 ∧
      ∃ R : Nat, configuredHeater.thermResistance 2048 = some R ∧ 0 < R ∧
        Heater.steinhartDenom (configuredHeater._SH_A : ℝ) (configuredHeater._SH_B : ℝ)
          (configuredHeater._SH_C : ℝ) (Real.log (R : ℝ)) ≠ 0) := by
  have hA : 0 < configuredHeater._SH_A := by
    show 0 < fl32 (811290160145459 / 1000000000000000000)
    rw [fl32_THERM_COEFF_A]
    norm_num
  have hB : 0 < configuredHeater._SH_B := by
    show 0 < fl32 (211355789144265 / 1000000000000000000)
    rw [fl32_THERM_COEFF_B]
    norm_num
  have hC : 0 < configuredHeater._SH_C := by
    show 0 < fl32 (717614730463848 / 10000000000000000000000)
    rw [fl32_THERM_COEFF_C]
    norm_num
  exact ⟨⟨rfl, rfl, hA, hB, hC, by decide, by decide⟩, by decide,
    estimate_is_finite configuredHeater 2048 rfl rfl hA hB hC (by decide) (by decide)⟩

/-- C10 (as stated, refuted): with the configured calibration the higher sample 4095
gives the resistance 19246500, far above the resistance 1 of the sample 1. -/
theorem higher_sample_higher_resistance :
    (1 : Int) ≤ 1 ∧ (1 : Int) < 4095 ∧ (4095 : Int) ≤ (configuredHeater._ADCMax : Int) - 1 ∧
    configuredHeater.thermResistance 1 = some 1 ∧
    configuredHeater.thermResistance 4095 = some 19246500 ∧
    ¬ ((19246500 : Nat) ≤ 1) := by
  refine ⟨by decide, by decide, by decide, by decide, by decide, by decide⟩

/-- C10 (amended): for samples `a < b` in `[1, _ADCMax - 1]`, with a calibration whose
product `_thermPullupR * _ADCMax` does not overflow the 32-bit unsigned arithmetic,
the resistance computed from the higher sample `b` is higher than or equal to the
resistance computed from `a`. -/
theorem resistance_monotone (h : Heater) (a b : Int) (ha : 1 ≤ a) (hab : a < b)
    (hb : b ≤ (h._ADCMax : Int) - 1) (hM : h._ADCMax < 4294967296)
    (hno : h._thermPullupR * h._ADCMax ≤ 4294967296) :
    ∃ Ra Rb : Nat, h.thermResistance a = some Ra ∧ h.thermResistance b = some Rb ∧
      Ra ≤ Rb := by
  have hma := Heater.thermResistance_of_mem h a ha (by omega) hM hno
  have hmb := Heater.thermResistance_of_mem h b (by omega) hb hM hno
  refine ⟨_, _, hma.2.2, hmb.2.2, ?_⟩
  exact Nat.div_le_div (Nat.mul_le_mul_left _ (by omega)) (by omega)
    (Nat.pos_iff_ne_zero.mp hmb.2.1)

/-- Witness of C10 (amended): the configured heater at the samples 2048 and 3072,
with resistances 4700 and 14100. -/
theorem resistance_monotone_witness :
    ((1 : Int) ≤ 2048 ∧ (2048 : Int) < 3072 ∧
      (3072 : Int) ≤ (configuredHeater._ADCMax : Int) - 1 ∧
      configuredHeater._ADCMax < 4294967296 ∧
      configuredHeater._thermPullupR * configuredHeater._ADCMax ≤ 4294967296) ∧
    configuredHeater.thermResistance 2048 = some 4700 ∧
    configuredHeater.thermResistance 3072 = some 14100 ∧
    ∃ Ra Rb : Nat, configuredHeater.thermResistance 2048 = some Ra ∧
      configuredHeater.thermResistance 3072 = some Rb ∧ Ra ≤ Rb :=
  ⟨⟨by decide, by decide, by decide, by decide, by decide⟩, by decide, by decide,
    resistance_monotone configuredHeater 2048 3072 (by decide) (by decide) (by decide)
      (by decide) (by decide)⟩

/-- C11: a control step executed while the heater is disabled stores the fresh
sample in `curTemp` and lowers the gate residual by the loop period; `iError`,
`lastError`, `targetTemp` and `_enabled` are unchanged and no pin is written (so the
heater duty and the fan output are unchanged) and nothing is printed. -/
theorem disabled_step_only_samples (h : Heater) (now : Nat) (temp : ℚ)
    (hg : h.gateOpen now = true) (hen : h._enabled = false) :
    h.run now temp =
      { h with curTemp := temp,
               lastPIDTime := (h.lastPIDTime + h._loopInterval) % 4294967296 } ∧
    (h.run now temp).curTemp = temp ∧
    (h.run now temp).iError = h.iError ∧
    (h.run now temp).lastError = h.lastError ∧
    (h.run now temp).targetTemp = h.targetTemp ∧
    (h.run now temp)._enabled = h._enabled ∧
    (h.run now temp).pinLog = h.pinLog ∧
    (h.run now temp).serialLog = h.serialLog ∧
    (∀ pin : Int, pinState (h.run now temp).pinLog pin = pinState h.pinLog pin) := by
  rw [Heater.run_of_disabled h now temp hg hen]
  exact ⟨rfl, rfl, rfl, rfl, rfl, rfl, rfl, rfl, fun _ => rfl⟩

/-- Witness of C11: the configured heater, disabled, polled at 10001 us with a sample
of 180 degrees. -/
theorem disabled_step_only_samples_witness :
    (configuredHeater.disable.gateOpen 10001 = true ∧
      configuredHeater.disable._enabled = false) ∧
    (configuredHeater.disable.run 10001 180).curTemp = 180 ∧
    (configuredHeater.disable.run 10001 180).iError = configuredHeater.disable.iError ∧
    (configuredHeater.disable.run 10001 180).pinLog = configuredHeater.disable.pinLog :=
  ⟨⟨by decide, by decide⟩,
    (disabled_step_only_samples configuredHeater.disable 10001 180 (by decide)
      (by decide)).2.1,
    (disabled_step_only_samples configuredHeater.disable 10001 180 (by decide)
      (by decide)).2.2.1,
    (disabled_step_only_samples configuredHeater.disable 10001 180 (by decide)
      (by decide)).2.2.2.2.2.2.1⟩

/-- C12 (as stated, refuted): a heater constructed with the fan on the heater pin 22
has that pin low after construction; `enable` writes the fan pin `HIGH`, which is the
heater pin, so the heater output does not stay unchanged. -/
theorem enable_drives_shared_heater_pin :
    sharedPinHeater._heaterPin = 22 ∧ sharedPinHeater._fanPin = 22 ∧
    pinState sharedPinHeater.pinLog sharedPinHeater._heaterPin = some 0 ∧
    sharedPinHeater.enable.pinLog = sharedPinHeater.pinLog ++ [PinWrite.digitalWrite 22 true] ∧
    pinState sharedPinHeater.enable.pinLog sharedPinHeater._heaterPin = some 1 := by
  decide

/-- C12 (amended): for a heater whose fan is not on the heater pin, `enable` sets
`_enabled`, writes the fan pin `HIGH` and nothing else: `iError`, `lastError`,
`targetTemp`, `curTemp` and the gate (its counter reference and its residual at every
reading) are unchanged, and so is the state of every pin other than the fan pin, the
heater pin among them. -/
theorem enable_frame (h : Heater) (hpins : (h._heaterPin : Int) ≠ (h._fanPin : Int)) :
    h.enable._enabled = true ∧
    h.enable.pinLog = h.pinLog ++ [PinWrite.digitalWrite h._fanPin true] ∧
    pinState h.enable.pinLog h._fanPin = some 1 ∧
    h.enable.iError = h.iError ∧
    h.enable.lastError = h.lastError ∧
    h.enable.targetTemp = h.targetTemp ∧
    h.enable.curTemp = h.curTemp ∧
    h.enable.lastPIDTime = h.lastPIDTime ∧
    (∀ now : Nat, h.enable.elapsed now = h.elapsed now) ∧
    (∀ pin : Int, pin ≠ (h._fanPin : Int) →
      pinState h.enable.pinLog pin = pinState h.pinLog pin) ∧
    pinState h.enable.pinLog h._heaterPin = pinState h.pinLog h._heaterPin := by
  have hlog : h.enable.pinLog = h.pinLog ++ [PinWrite.digitalWrite h._fanPin true] := rfl
  have hother : ∀ pin : Int, pin ≠ (h._fanPin : Int) →
      pinState h.enable.pinLog pin = pinState h.pinLog pin := by
    intro pin hpin
    rw [hlog, pinState_append_single, if_neg]
    exact fun e => hpin e.symm
  refine ⟨rfl, hlog, ?_, rfl, rfl, rfl, rfl, rfl, fun _ => rfl, hother, hother _ hpins⟩
  rw [hlog, pinState_append_single]
  simp [PinWrite.pin, PinWrite.value]

/-- Witness of C12 (amended): enabling the disabled configured heater (heater on pin
22, fan on pin 9) switches the fan on and leaves the heater pin at the duty 0 that
`disable` wrote. -/
theorem enable_frame_witness :
    ((configuredHeater.disable._heaterPin : Int) ≠ (configuredHeater.disable._fanPin : Int)) ∧
    configuredHeater.disable.enable._enabled = true ∧
    pinState configuredHeater.disable.enable.pinLog configuredHeater.disable._fanPin =
      some 1 ∧
    pinState configuredHeater.disable.pinLog configuredHeater.disable._heaterPin = some 0 ∧
    pinState configuredHeater.disable.enable.pinLog configuredHeater.disable._heaterPin =
      pinState configuredHeater.disable.pinLog configuredHeater.disable._heaterPin :=
  ⟨by decide, (enable_frame configuredHeater.disable (by decide)).1,
    (enable_frame configuredHeater.disable (by decide)).2.2.1, by decide,
    (enable_frame configuredHeater.disable (by decide)).2.2.2.2.2.2.2.2.2.2⟩

/-- C13 (as stated, refuted): a stepper constructed with the direction output on the
sleep pin 15 and then enabled has the sleep/enable line asserted and the generator
armed; `setDir(false)` writes that pin `LOW`, so the line is de-asserted while the
generator stays armed. -/
theorem setDir_deasserts_shared_sleep_pin :
    sharedPinStepper._dirPin = 15 ∧ sharedPinStepper._sleepPin = 15 ∧
    pinState sharedPinStepper.pinLog sharedPinStepper._sleepPin = some 1 ∧
    sharedPinStepper.driverEnabled = true ∧
    pinState (sharedPinStepper.setDir false).pinLog sharedPinStepper._sleepPin = some 0 ∧
    (sharedPinStepper.setDir false).driverEnabled = false ∧
    (sharedPinStepper.setDir false).armed = true := by
  decide

/-- C13 (amended): for a stepper whose direction output is not on the sleep pin,
`setDir(dir)` writes `dir` to the direction pin and nothing else: `usPerStep`, the
timer (armed or not, and its half-period) and the state of every pin other than the
direction pin are unchanged, the sleep pin among them. -/
theorem setDir_frame (s : Stepper) (dir : Bool) (hpins : s._dirPin ≠ s._sleepPin) :
    (s.setDir dir).pinLog = s.pinLog ++ [PinWrite.digitalWrite s._dirPin dir] ∧
    pinState (s.setDir dir).pinLog s._dirPin = some (if dir then 1 else 0) ∧
    (s.setDir dir).usPerStep = s.usPerStep ∧
    (s.setDir dir).stepTimer = s.stepTimer ∧
    (s.setDir dir).armed = s.armed ∧
    (∀ pin : Int, pin ≠ s._dirPin →
      pinState (s.setDir dir).pinLog pin = pinState s.pinLog pin) ∧
    pinState (s.setDir dir).pinLog s._sleepPin = pinState s.pinLog s._sleepPin ∧
    (s.setDir dir).driverEnabled = s.driverEnabled := by
  have hlog : (s.setDir dir).pinLog = s.pinLog ++ [PinWrite.digitalWrite s._dirPin dir] := rfl
  have hother : ∀ pin : Int, pin ≠ s._dirPin →
      pinState (s.setDir dir).pinLog pin = pinState s.pinLog pin := by
    intro pin hpin
    rw [hlog, pinState_append_single, if_neg]
    exact fun e => hpin e.symm
  refine ⟨hlog, ?_, rfl, rfl, rfl, hother, hother _ (fun e => hpins e.symm),
    Stepper.driverEnabled_setDir s dir hpins⟩
  rw [hlog, pinState_append_single]
  simp [PinWrite.pin, PinWrite.value]

/-- Witness of C13 (amended): reversing the enabled configured stepper (direction on
pin 17, sleep on pin 15) keeps it enabled and armed at the same half-period. -/
theorem setDir_frame_witness :
    configuredStepper.enable._dirPin ≠ configuredStepper.enable._sleepPin ∧
    (configuredStepper.enable.setDir false).stepTimer = some 1725 ∧
    (configuredStepper.enable.setDir false).driverEnabled = true ∧
    pinState (configuredStepper.enable.setDir false).pinLog 17 = some 0 :=
  ⟨by decide,
    ((setDir_frame configuredStepper.enable false (by decide)).2.2.2.1).trans (by decide),
    ((setDir_frame configuredStepper.enable false (by decide)).2.2.2.2.2.2.2).trans
      (by decide),
    (setDir_frame configuredStepper.enable false (by decide)).2.1⟩

/-- C15 (code evaluated at the failing input): constructed with the configured
arguments on storage that is not zeroed, the heater has both outputs written `LOW`
and holds the fresh sample, but `_enabled`, `lastError` and `iError` still hold what
the storage held (true, 3 and 5): the first executed `run` drives the heater at full
permitted duty although `enable` was never called. -/
theorem construct_leaves_members_uninitialised :
    dirtyHeater.pinLog = [PinWrite.digitalWrite 22 false, PinWrite.digitalWrite 9 false] ∧
    dirtyHeater.curTemp = 25 ∧
    dirtyHeater._enabled = true ∧
    dirtyHeater.lastError = 3 ∧
    dirtyHeater.iError = 5 ∧
    (dirtyHeater.run 10001 25).pinLog =
      [PinWrite.digitalWrite 22 false, PinWrite.digitalWrite 9 false,
        PinWrite.analogWrite 22 220] := by
  refine ⟨rfl, rfl, rfl, rfl, rfl, ?_⟩
  have hraw : (dirtyHeater.sampled 25).pidRaw = 367739 / 2 := dirtyHeater_step.2.2.2.1
  have hm : (dirtyHeater.sampled 25)._maxPWM = 220 := by decide
  have hW := (Heater.PWMOUT_of_large (dirtyHeater.sampled 25)
    (by rw [hm]; decide) (by rw [hm]; decide) (by rw [hm, hraw]; norm_num)).2
  rw [hm] at hW
  rw [Heater.run_of_enabled _ _ _ (by decide) (by decide)]
  simp only [Heater.control, hW]
  rfl

/-- C16 (code evaluated at the failing input): for a stepper constructed with step
pin 5, every callback writes pin 16, alternating the level, and pin 5 is never
written. -/
theorem STEPISR_writes_pin_16 :
    (Stepper.construct 5 17 13 14 15 (fl32 (345 / 100000)) 1 true)._stepPin = 5 ∧
    (∀ g : StepISRState,
      (STEPISR g).pinLog = g.pinLog ++ [PinWrite.digitalWrite 16 (!g.stepOn)] ∧
      (STEPISR g).stepOn = !g.stepOn) ∧
    (STEPISR (STEPISR { stepOn := false, pinLog := [] })).pinLog =
      [PinWrite.digitalWrite 16 true, PinWrite.digitalWrite 16 false] ∧
    pinState (STEPISR (STEPISR { stepOn := false, pinLog := [] })).pinLog 5 = none ∧
    pinState (STEPISR (STEPISR { stepOn := false, pinLog := [] })).pinLog 16 = some 0 := by
  refine ⟨rfl, fun g => ⟨rfl, rfl⟩, rfl, by decide, by decide⟩

/-- C17 (code evaluated at the failing input): `encRead` right after `encWrite(-1)`
returns 0, after `encWrite(-2)` it returns -1, while a non-negative position such as 3
comes back unchanged; the count -3, one quadrature step from detent -1, still reads as
detent 0. -/
theorem encRead_after_negative_encWrite (k : Knob) :
    (k.encWrite (-1)).encRead = 0 ∧
    (k.encWrite (-2)).encRead = -1 ∧
    (k.encWrite 3).encRead = 3 ∧
    ({ k with enc := -3 } : Knob).encRead = 0 := by
  refine ⟨?_, ?_, ?_, ?_⟩
  · show Int.tdiv (wrapInt (wrapInt (-1 * 4) + 2)) 4 = 0
    decide
  · show Int.tdiv (wrapInt (wrapInt (-2 * 4) + 2)) 4 = -1
    decide
  · show Int.tdiv (wrapInt (wrapInt (3 * 4) + 2)) 4 = 3
    decide
  · show Int.tdiv (wrapInt (-3 + 2)) 4 = 0
    decide

/-- C18: for `hue` in `[0, 359]`, `sat` in `[0, 255]` and `val` in `[0, 255]`,
`HSV2RGB` returns components that each lie in `[0, val]` and whose maximum is `val`;
for `sat = 0` it returns `(val, val, val)`; and `updateColor` writes the three values
`255 - c`, each in `[0, 255]`. -/
theorem HSV2RGB_range (hue sat val : Int) (hh0 : 0 ≤ hue) (hh1 : hue ≤ 359)
    (hs0 : 0 ≤ sat) (hs1 : sat ≤ 255) (hv0 : 0 ≤ val) (hv1 : val ≤ 255) :
    (0 ≤ (Knob.HSV2RGB hue sat val).r ∧ (Knob.HSV2RGB hue sat val).r ≤ val) ∧
    (0 ≤ (Knob.HSV2RGB hue sat val).g ∧ (Knob.HSV2RGB hue sat val).g ≤ val) ∧
    (0 ≤ (Knob.HSV2RGB hue sat val).b ∧ (Knob.HSV2RGB hue sat val).b ≤ val) ∧
    max (Knob.HSV2RGB hue sat val).r
      (max (Knob.HSV2RGB hue sat val).g (Knob.HSV2RGB hue sat val).b) = val ∧
    (sat = 0 → Knob.HSV2RGB hue sat val = { r := val, g := val, b := val }) ∧
    (∀ k : Knob, (k.updateColor hue sat val).pinLog = k.pinLog ++
      [PinWrite.analogWrite k._RLED (255 - (Knob.HSV2RGB hue sat val).r),
       PinWrite.analogWrite k._GLED (255 - (Knob.HSV2RGB hue sat val).g),
       PinWrite.analogWrite k._BLED (255 - (Knob.HSV2RGB hue sat val).b)]) ∧
    (0 ≤ 255 - (Knob.HSV2RGB hue sat val).r ∧ 255 - (Knob.HSV2RGB hue sat val).r ≤ 255) ∧
    (0 ≤ 255 - (Knob.HSV2RGB hue sat val).g ∧ 255 - (Knob.HSV2RGB hue sat val).g ≤ 255) ∧
    (0 ≤ 255 - (Knob.HSV2RGB hue sat val).b ∧ 255 - (Knob.HSV2RGB hue sat val).b ≤ 255) := by
  have hq : Int.tdiv hue 60 = hue / 60 := Int.tdiv_eq_ediv hh0 (by norm_num)
  have hm : Int.tmod hue 60 = hue % 60 := Int.tmod_eq_emod hh0 (by norm_num)
  have hb := base_bounds sat val hs0 hs1 hv0
  have hd : 0 ≤ val - (255 - sat) * val / 256 := by omega
  have F0 : hue / 60 = 0 →
      0 ≤ Int.tdiv ((val - (255 - sat) * val / 256) * hue) 60 ∧
      Int.tdiv ((val - (255 - sat) * val / 256) * hue) 60 ≤ val - (255 - sat) * val / 256 :=
    fun h0 => div60_bounds _ hue hd hh0 (by omega)
  have F1 := div60_bounds (val - (255 - sat) * val / 256) (hue % 60) hd (by omega) (by omega)
  have F2 := div60_bounds (val - (255 - sat) * val / 256) (60 - hue % 60) hd (by omega)
    (by omega)
  have key : (0 ≤ (Knob.HSV2RGB hue sat val).r ∧ (Knob.HSV2RGB hue sat val).r ≤ val) ∧
      (0 ≤ (Knob.HSV2RGB hue sat val).g ∧ (Knob.HSV2RGB hue sat val).g ≤ val) ∧
      (0 ≤ (Knob.HSV2RGB hue sat val).b ∧ (Knob.HSV2RGB hue sat val).b ≤ val) ∧
      max (Knob.HSV2RGB hue sat val).r
        (max (Knob.HSV2RGB hue sat val).g (Knob.HSV2RGB hue sat val).b) = val := by
    unfold Knob.HSV2RGB
    rw [hq, hm]
    generalize (255 - sat) * val / 256 = base at hb hd F0 F1 F2 ⊢
    generalize Int.tdiv ((val - base) * hue) 60 = x0 at F0 ⊢
    generalize Int.tdiv ((val - base) * (hue % 60)) 60 = x1 at F1 ⊢
    generalize Int.tdiv ((val - base) * (60 - hue % 60)) 60 = x2 at F2 ⊢
    split_ifs with c0 c1 c2 c3 c4 c5 c6
    · dsimp only
      omega
    · have := F0 c1
      dsimp only
      omega
    · dsimp only
      omega
    · dsimp only
      omega
    · dsimp only
      omega
    · dsimp only
      omega
    · dsimp only
      omega
    · omega
  refine ⟨key.1, key.2.1, key.2.2.1, key.2.2.2, ?_, fun k => rfl, ?_, ?_, ?_⟩
  · intro h0
    unfold Knob.HSV2RGB
    rw [if_pos h0]
  · have := key.1
    omega
  · have := key.2.1
    omega
  · have := key.2.2.1
    omega

/-- Witness of C18: the hue 276 of the servo mode at saturation 200 and value 128
gives (87, 27, 128) and the writes 168, 228 and 127. -/
theorem HSV2RGB_range_witness :
    Knob.HSV2RGB 276 200 128 = { r := 87, g := 27, b := 128 } ∧
    max (Knob.HSV2RGB 276 200 128).r
      (max (Knob.HSV2RGB 276 200 128).g (Knob.HSV2RGB 276 200 128).b) = 128 ∧
    (configuredKnob.updateColor 276 200 128).pinLog =
      [PinWrite.analogWrite 6 168, PinWrite.analogWrite 5 228, PinWrite.analogWrite 3 127] :=
  ⟨by decide,
    (HSV2RGB_range 276 200 128 (by decide) (by decide) (by decide) (by decide) (by decide)
      (by decide)).2.2.2.1,
    by decide⟩

end SLAMStruder
